/-
  Verification of the smart-heat-pump monitoring firmware.

  Shallow embedding of the firmware's data model and operations:
  * types.h        : AlertLevel, AlertType, SMSCommand, SensorReading, SystemData
  * buffer.h       : circular offline buffer (bufferData / getNextBufferedData /
                     markDataPublished / ...)
  * alerts.cpp     : threshold checks, cooldown table, checkAllAlerts
  * sensors.cpp    : readAllSensors (live path) and simulateSensors
  * mqtt.cpp       : publishBufferedData drain loop
  * gsm.cpp        : parseSMSCommand

  C `float` values are modelled by an inductive `FVal` that is either NaN or a
  rational number; every comparison involving NaN is false, matching IEEE-754
  comparison semantics used by the firmware.  `unsigned long` millis() values
  are modelled by `Nat`; the firmware's `now < last` wraparound branch is
  translated literally.  External effects (analog reads, random jitter, SMS and
  MQTT delivery outcomes, clock reads) are passed in as explicit parameters.
-/
import Mathlib

namespace HeatPump

/-! ## types.h -/

/-- `enum AlertLevel` from types.h. -/
inductive AlertLevel where
  | ok
  | warning
  | critical
  deriving DecidableEq, Repr

/-- `enum AlertType` from types.h (without the `ALERT_TYPE_COUNT` sentinel,
which only sizes the arrays; the C guards `type >= ALERT_TYPE_COUNT` are
unreachable for the six real enumerators and are therefore dropped). -/
inductive AlertType where
  | voltageHigh
  | voltageLow
  | compressorTemp
  | pressureHigh
  | pressureLow
  | overcurrent
  deriving DecidableEq, Repr

/-- `enum SMSCommand` from types.h. -/
inductive SMSCommand where
  | none
  | status
  | reset
  | unknown
  deriving DecidableEq, Repr

/-- Model of a C `float`: NaN or a rational value.  All comparisons with NaN
are false, as in IEEE-754. -/
inductive FVal where
  | nan
  | fin (q : ℚ)
  deriving DecidableEq, Repr

/-- `x >= y` on floats (false whenever either side is NaN). -/
def FVal.fge : FVal → FVal → Bool
  | .fin a, .fin b => decide (a ≥ b)
  | _, _ => false

/-- `x <= y` on floats (false whenever either side is NaN). -/
def FVal.fle : FVal → FVal → Bool
  | .fin a, .fin b => decide (a ≤ b)
  | _, _ => false

/-- `x > y` on floats (false whenever either side is NaN). -/
def FVal.fgt : FVal → FVal → Bool
  | .fin a, .fin b => decide (a > b)
  | _, _ => false

/-- Float multiplication with NaN propagation. -/
def FVal.fmul : FVal → FVal → FVal
  | .fin a, .fin b => .fin (a * b)
  | _, _ => .nan

/-- `struct SensorReading` from types.h. -/
structure SensorReading where
  value : FVal
  alertLevel : AlertLevel
  timestamp : ℕ
  valid : Bool
  deriving DecidableEq, Repr

/-- The `SensorReading()` default constructor: value 0, ALERT_OK, time 0,
invalid. -/
def SensorReading.default0 : SensorReading :=
  ⟨.fin 0, .ok, 0, false⟩

instance : Inhabited SensorReading := ⟨SensorReading.default0⟩

/-- `struct SystemData` from types.h. -/
structure SystemData where
  tempInlet : SensorReading
  tempOutlet : SensorReading
  tempAmbient : SensorReading
  tempCompressor : SensorReading
  voltage : SensorReading
  current : SensorReading
  power : FVal
  pressureHigh : SensorReading
  pressureLow : SensorReading
  compressorRunning : Bool
  fanRunning : Bool
  defrostActive : Bool
  readingTime : ℕ
  deriving DecidableEq, Repr

/-- The `SystemData()` default constructor. -/
def SystemData.default0 : SystemData :=
  ⟨SensorReading.default0, SensorReading.default0, SensorReading.default0,
   SensorReading.default0, SensorReading.default0, SensorReading.default0,
   .fin 0, SensorReading.default0, SensorReading.default0,
   false, false, false, 0⟩

instance : Inhabited SystemData := ⟨SystemData.default0⟩

/-! ## config.h constants -/

def BUFFER_SIZE : ℕ := 100
def ALERT_COOLDOWN : ℕ := 300000

def VOLTAGE_HIGH_CRITICAL : ℚ := 250
def VOLTAGE_HIGH_WARNING : ℚ := 245
def VOLTAGE_LOW_WARNING : ℚ := 215
def VOLTAGE_LOW_CRITICAL : ℚ := 210
def COMP_TEMP_CRITICAL : ℚ := 95
def COMP_TEMP_WARNING : ℚ := 85
def PRESSURE_HIGH_CRITICAL : ℚ := 450
def PRESSURE_HIGH_WARNING : ℚ := 400
def PRESSURE_LOW_CRITICAL : ℚ := 20
def PRESSURE_LOW_WARNING : ℚ := 40
def CURRENT_CRITICAL : ℚ := 15
def CURRENT_WARNING : ℚ := 12

def TEMP_MIN_VALID : ℚ := -40
def TEMP_MAX_VALID : ℚ := 125
def VOLTAGE_MIN_VALID : ℚ := 0
def VOLTAGE_MAX_VALID : ℚ := 300
def CURRENT_MIN_VALID : ℚ := 0
def CURRENT_MAX_VALID : ℚ := 25
def PRESSURE_MIN_VALID : ℚ := 0
def PRESSURE_MAX_VALID : ℚ := 500

/-! ## alerts.cpp — threshold check functions -/

/-- `checkVoltage` from alerts.cpp.  Returns the level together with the
`isHigh` out-parameter; in the ALERT_OK branch the C code leaves `isHigh`
uninitialised and the caller never reads it, so we return `false` there. -/
def checkVoltage (v : FVal) : AlertLevel × Bool :=
  if v.fge (.fin VOLTAGE_HIGH_CRITICAL) then (.critical, true)
  else if v.fge (.fin VOLTAGE_HIGH_WARNING) then (.warning, true)
  else if v.fle (.fin VOLTAGE_LOW_CRITICAL) then (.critical, false)
  else if v.fle (.fin VOLTAGE_LOW_WARNING) then (.warning, false)
  else (.ok, false)

/-- `checkCompressorTemp` from alerts.cpp. -/
def checkCompressorTemp (t : FVal) : AlertLevel :=
  if t.fge (.fin COMP_TEMP_CRITICAL) then .critical
  else if t.fge (.fin COMP_TEMP_WARNING) then .warning
  else .ok

/-- `checkPressureHigh` from alerts.cpp. -/
def checkPressureHigh (p : FVal) : AlertLevel :=
  if p.fge (.fin PRESSURE_HIGH_CRITICAL) then .critical
  else if p.fge (.fin PRESSURE_HIGH_WARNING) then .warning
  else .ok

/-- `checkPressureLow` from alerts.cpp. -/
def checkPressureLow (p : FVal) : AlertLevel :=
  if p.fle (.fin PRESSURE_LOW_CRITICAL) then .critical
  else if p.fle (.fin PRESSURE_LOW_WARNING) then .warning
  else .ok

/-- `checkCurrent` from alerts.cpp. -/
def checkCurrent (c : FVal) : AlertLevel :=
  if c.fge (.fin CURRENT_CRITICAL) then .critical
  else if c.fge (.fin CURRENT_WARNING) then .warning
  else .ok

/-! ## buffer.h — circular offline buffer -/

/-- `struct DataBuffer` from buffer.h.  The fixed C array
`SystemData readings[BUFFER_SIZE]` is modelled by a list whose length is kept
at `BUFFER_SIZE` by the invariant below. -/
structure DataBuffer where
  readings : List SystemData
  head : ℕ
  tail : ℕ
  count : ℕ
  overflow : Bool
  deriving Repr

/-- State after `initBuffer()` (the static array is zero-initialised to
default `SystemData`). -/
def initBuffer : DataBuffer :=
  ⟨List.replicate BUFFER_SIZE SystemData.default0, 0, 0, 0, false⟩

/-- `bufferData` from buffer.h: if full, drop the oldest item and set the
overflow flag, then insert at `head`.  Always returns true. -/
def bufferData (buf : DataBuffer) (d : SystemData) : DataBuffer × Bool :=
  let buf :=
    if buf.count ≥ BUFFER_SIZE then
      { buf with overflow := true,
                 tail := (buf.tail + 1) % BUFFER_SIZE,
                 count := buf.count - 1 }
    else buf
  ({ buf with readings := buf.readings.set buf.head d,
              head := (buf.head + 1) % BUFFER_SIZE,
              count := buf.count + 1 }, true)

/-- `bufferHasData` from buffer.h. -/
def bufferHasData (buf : DataBuffer) : Bool :=
  buf.count > 0

/-- `bufferCount` from buffer.h. -/
def bufferCount (buf : DataBuffer) : ℕ :=
  buf.count

/-- `getNextBufferedData` from buffer.h: returns the oldest item (at `tail`)
without removing it, or `none` when empty.  The C function returns a pointer
and writes no state; we return the unchanged buffer alongside the result to
make that explicit. -/
def getNextBufferedData (buf : DataBuffer) : Option SystemData × DataBuffer :=
  if buf.count = 0 then (none, buf)
  else (some (buf.readings.getD buf.tail SystemData.default0), buf)

/-- `markDataPublished` from buffer.h: drop the oldest item. -/
def markDataPublished (buf : DataBuffer) : DataBuffer :=
  if buf.count > 0 then
    { buf with tail := (buf.tail + 1) % BUFFER_SIZE, count := buf.count - 1 }
  else buf

/-- `isBufferFull` from buffer.h. -/
def isBufferFull (buf : DataBuffer) : Bool :=
  buf.count ≥ BUFFER_SIZE

/-- `didBufferOverflow` from buffer.h. -/
def didBufferOverflow (buf : DataBuffer) : Bool :=
  buf.overflow

/-- Structural invariant of the circular buffer: the backing array has the
fixed capacity, `tail` is in range, `count` never exceeds capacity, and
`head` is `tail + count` modulo capacity (true after `initBuffer` and
preserved by every operation). -/
def BufInv (buf : DataBuffer) : Prop :=
  buf.readings.length = BUFFER_SIZE ∧
  buf.tail < BUFFER_SIZE ∧
  buf.count ≤ BUFFER_SIZE ∧
  buf.head = (buf.tail + buf.count) % BUFFER_SIZE

/-- Abstraction: the buffered items oldest-first (`count` items starting at
`tail`, wrapping modulo the capacity). -/
def bufItems (buf : DataBuffer) : List SystemData :=
  (List.range buf.count).map
    (fun i => buf.readings.getD ((buf.tail + i) % BUFFER_SIZE) SystemData.default0)

theorem bufInv_initBuffer : BufInv initBuffer := by
  refine ⟨?_, ?_, ?_, ?_⟩ <;> simp [initBuffer, BUFFER_SIZE]

theorem bufItems_initBuffer : bufItems initBuffer = [] := by
  simp [bufItems, initBuffer]

theorem bufItems_length (buf : DataBuffer) : (bufItems buf).length = buf.count := by
  simp [bufItems]

theorem getNextBufferedData_eq (buf : DataBuffer) (hInv : BufInv buf) :
    getNextBufferedData buf = ((bufItems buf).head?, buf) := by
  obtain ⟨_, h2, _, _⟩ := hInv
  unfold getNextBufferedData bufItems
  rcases h : buf.count with _ | c
  · simp
  · simp [List.range_succ_eq_map, Nat.mod_eq_of_lt h2]

theorem bufInv_markDataPublished (buf : DataBuffer) (h : BufInv buf) :
    BufInv (markDataPublished buf) := by
  obtain ⟨h1, h2, h3, h4⟩ := h
  unfold markDataPublished BufInv
  unfold BUFFER_SIZE at *
  split
  · refine ⟨h1, ?_, ?_, ?_⟩ <;> simp only at * <;> omega
  · exact ⟨h1, h2, h3, h4⟩

theorem count_markDataPublished (buf : DataBuffer) :
    (markDataPublished buf).count = buf.count - 1 := by
  unfold markDataPublished
  split
  · rfl
  · omega

theorem bufItems_markDataPublished (buf : DataBuffer) (h : BufInv buf) :
    bufItems (markDataPublished buf) = (bufItems buf).drop 1 := by
  obtain ⟨h1, h2, h3, h4⟩ := h
  unfold markDataPublished
  split
  · rcases hc : buf.count with _ | c
    · omega
    · unfold bufItems
      simp only [hc, count_markDataPublished]
      rw [List.range_succ_eq_map]
      simp only [List.map_cons, List.map_map, List.drop_succ_cons, List.drop_zero]
      apply List.map_congr_left
      intro i _
      simp only [Function.comp_apply]
      congr 1
      unfold BUFFER_SIZE at *
      omega
  · rcases hc : buf.count with _ | c
    · simp [bufItems, hc]
    · omega

theorem getD_set_ne (l : List SystemData) (i j : ℕ) (x d : SystemData) (h : i ≠ j) :
    (l.set i x).getD j d = l.getD j d := by
  simp [List.getD_eq_getElem?_getD, List.getElem?_set_ne h]

theorem getD_set_self (l : List SystemData) (i : ℕ) (x d : SystemData) (h : i < l.length) :
    (l.set i x).getD i d = x := by
  simp [List.getD_eq_getElem?_getD, List.getElem?_set_self, h]

theorem bufferData_snd (buf : DataBuffer) (d : SystemData) :
    (bufferData buf d).2 = true := rfl

theorem count_bufferData (buf : DataBuffer) (d : SystemData) (h : BufInv buf) :
    (bufferData buf d).1.count = min (buf.count + 1) BUFFER_SIZE := by
  obtain ⟨_, _, h3, _⟩ := h
  unfold bufferData
  split <;> dsimp only <;> unfold BUFFER_SIZE at * <;> omega

theorem overflow_bufferData (buf : DataBuffer) (d : SystemData) :
    (bufferData buf d).1.overflow = (buf.overflow || decide (BUFFER_SIZE ≤ buf.count)) := by
  unfold bufferData
  split
  · next hge => simp [ge_iff_le] at hge; simp [hge]
  · next hge => simp [ge_iff_le] at hge; simp [Nat.not_le.mpr hge]

theorem bufInv_bufferData (buf : DataBuffer) (d : SystemData) (h : BufInv buf) :
    BufInv (bufferData buf d).1 := by
  obtain ⟨h1, h2, h3, h4⟩ := h
  unfold bufferData BufInv
  unfold BUFFER_SIZE at *
  split <;> simp only [List.length_set] <;> refine ⟨h1, ?_, ?_, ?_⟩ <;> omega

theorem drop_one_map_range (g : ℕ → SystemData) (n : ℕ) :
    (((List.range (n + 1)).map g).drop 1) = (List.range n).map (fun i => g (i + 1)) := by
  rw [List.range_succ_eq_map]
  simp [List.map_map]

theorem bufItems_bufferData (buf : DataBuffer) (d : SystemData) (h : BufInv buf) :
    bufItems (bufferData buf d).1 =
      (if BUFFER_SIZE ≤ buf.count then (bufItems buf).drop 1 else bufItems buf) ++ [d] := by
  obtain ⟨h1, h2, h3, h4⟩ := h
  by_cases hfull : BUFFER_SIZE ≤ buf.count
  · have hc : buf.count = BUFFER_SIZE := le_antisymm h3 hfull
    have hht : buf.head = buf.tail := by
      unfold BUFFER_SIZE at *
      omega
    rw [if_pos hfull]
    unfold bufferData
    rw [if_pos (ge_iff_le.mpr hfull)]
    unfold bufItems
    dsimp only
    simp only [hc, hht]
    unfold BUFFER_SIZE at *
    rw [drop_one_map_range _ 99]
    have hcount : 100 - 1 + 1 = 99 + 1 := rfl
    rw [hcount, List.range_succ, List.map_append]
    congr 1
    · apply List.map_congr_left
      intro i hi
      simp only [List.mem_range] at hi
      rw [getD_set_ne]
      · congr 1
        omega
      · omega
    · simp only [List.map_cons, List.map_nil]
      have hix : ((buf.tail + 1) % 100 + 99) % 100 = buf.tail := by omega
      rw [hix, getD_set_self]
      omega
  · rw [if_neg hfull]
    unfold bufferData
    rw [if_neg (fun hge => hfull (ge_iff_le.mp hge))]
    unfold bufItems
    dsimp only
    rw [List.range_succ, List.map_append]
    unfold BUFFER_SIZE at *
    congr 1
    · apply List.map_congr_left
      intro i hi
      simp only [List.mem_range] at hi
      rw [getD_set_ne]
      omega
    · simp only [List.map_cons, List.map_nil]
      rw [h4]
      rw [getD_set_self]
      omega

/-! ## Runs of buffer operations -/

/-- A sequence of `bufferData` inserts starting from the freshly initialised
buffer. -/
def insertRun (l : List SystemData) : DataBuffer :=
  l.foldl (fun b d => (bufferData b d).1) initBuffer

/-- Characterisation of an insert run: the invariant holds, `count` saturates
at the capacity, `overflow` is set exactly when more than `BUFFER_SIZE` items
were inserted, and the surviving items are the most recent `BUFFER_SIZE`
inserts in original order. -/
theorem insertRun_spec (l : List SystemData) :
    BufInv (insertRun l) ∧
    (insertRun l).count = min l.length BUFFER_SIZE ∧
    (insertRun l).overflow = decide (BUFFER_SIZE < l.length) ∧
    bufItems (insertRun l) = l.drop (l.length - BUFFER_SIZE) := by
  induction l using List.reverseRecOn with
  | nil =>
      refine ⟨bufInv_initBuffer, ?_, ?_, ?_⟩
      · simp [insertRun, initBuffer]
      · simp [insertRun, initBuffer]
      · simp [bufItems_initBuffer, insertRun, initBuffer, bufItems]
  | append_singleton l d ih =>
      obtain ⟨hInv, hcnt, hovf, hitems⟩ := ih
      have hrun : insertRun (l ++ [d]) = (bufferData (insertRun l) d).1 := by
        simp [insertRun]
      refine ⟨?_, ?_, ?_, ?_⟩
      · rw [hrun]; exact bufInv_bufferData _ _ hInv
      · rw [hrun, count_bufferData _ _ hInv, hcnt]
        simp only [List.length_append, List.length_singleton]
        omega
      · rw [hrun, overflow_bufferData, hovf, hcnt]
        simp only [List.length_append, List.length_singleton]
        have hstep : (decide (BUFFER_SIZE < l.length) ||
            decide (BUFFER_SIZE ≤ min l.length BUFFER_SIZE)) =
            decide (BUFFER_SIZE < l.length ∨ BUFFER_SIZE ≤ min l.length BUFFER_SIZE) := by
          simp
        rw [hstep, decide_eq_decide]
        unfold BUFFER_SIZE
        omega
      · rw [hrun, bufItems_bufferData _ _ hInv, hitems, hcnt]
        simp only [List.length_append, List.length_singleton]
        have hk : l.length + 1 - BUFFER_SIZE ≤ l.length := by
          unfold BUFFER_SIZE
          omega
        rw [List.drop_append_of_le_length hk]
        congr 1
        by_cases hge : BUFFER_SIZE ≤ l.length
        · rw [if_pos (by omega), List.drop_drop]
          congr 1
          omega
        · rw [if_neg (by omega)]
          congr 1
          omega

/-- `N` iterations of `getNextBufferedData` (peek) immediately followed by
`markDataPublished` (commit), collecting the peeked items; stops early if the
buffer empties. -/
def peekCommitRun : DataBuffer → ℕ → List SystemData × DataBuffer
  | buf, 0 => ([], buf)
  | buf, n + 1 =>
    match getNextBufferedData buf with
    | (some d, buf1) =>
        let buf2 := markDataPublished buf1
        let r := peekCommitRun buf2 n
        (d :: r.1, r.2)
    | (none, buf1) => ([], buf1)

theorem peekCommitRun_spec (buf : DataBuffer) (n : ℕ) (hInv : BufInv buf)
    (hn : n ≤ buf.count) :
    (peekCommitRun buf n).1 = (bufItems buf).take n ∧
    (peekCommitRun buf n).2.count = buf.count - n := by
  induction n generalizing buf with
  | zero => simp [peekCommitRun]
  | succ m ih =>
      have hpos : 0 < buf.count := by omega
      have hne : bufItems buf ≠ [] := by
        intro hnil
        have := bufItems_length buf
        rw [hnil] at this
        simp at this
        omega
      obtain ⟨d, t, hdt⟩ : ∃ d t, bufItems buf = d :: t := by
        rcases hl : bufItems buf with _ | ⟨d, t⟩
        · exact absurd hl hne
        · exact ⟨d, t, rfl⟩
      have hpeek : getNextBufferedData buf = (some d, buf) := by
        rw [getNextBufferedData_eq buf hInv, hdt]
        rfl
      have hInv2 : BufInv (markDataPublished buf) := bufInv_markDataPublished buf hInv
      have hcnt2 : (markDataPublished buf).count = buf.count - 1 :=
        count_markDataPublished buf
      have hitems2 : bufItems (markDataPublished buf) = t := by
        rw [bufItems_markDataPublished buf hInv, hdt]
        rfl
      have ihm := ih (markDataPublished buf) hInv2 (by omega)
      constructor
      · show (peekCommitRun buf (m + 1)).1 = (bufItems buf).take (m + 1)
        unfold peekCommitRun
        rw [hpeek]
        simp only [hdt, List.take_succ_cons]
        rw [ihm.1, hitems2]
      · show (peekCommitRun buf (m + 1)).2.count = buf.count - (m + 1)
        unfold peekCommitRun
        rw [hpeek]
        simp only []
        rw [ihm.2, hcnt2]
        omega

/-! ## mqtt.cpp — publishBufferedData drain loop

`publishSensorData` succeeds or fails depending on the network; its outcomes
are modelled by `outcome : ℕ → Bool` giving the result of the k-th publish
attempt of the drain.  The while loop terminates because every successful
publish removes one item; we run it on fuel `buf.count`, which suffices. -/

/-- Number of consecutive successful outcomes starting at attempt index `p`,
out of the next `n` attempts. -/
def leadRun (outcome : ℕ → Bool) : ℕ → ℕ → ℕ
  | _, 0 => 0
  | p, n + 1 => if outcome p then leadRun outcome (p + 1) n + 1 else 0

/-- The `while (bufferHasData())` loop of `publishBufferedData`: peek the
oldest item, attempt delivery, commit on success and continue, stop on the
first failure.  Returns the final buffer, the list of delivered (committed)
snapshots in delivery order, and the `failed` counter. -/
def drainLoop (outcome : ℕ → Bool) : ℕ → DataBuffer → ℕ → DataBuffer × List SystemData × ℕ
  | 0, buf, _ => (buf, [], 0)
  | fuel + 1, buf, p =>
    if bufferHasData buf then
      match (getNextBufferedData buf).1 with
      | Option.none => (buf, [], 0)
      | Option.some d =>
        if outcome p then
          let r := drainLoop outcome fuel (markDataPublished buf) (p + 1)
          (r.1, d :: r.2.1, r.2.2)
        else (buf, [], 1)
    else (buf, [], 0)

/-- `publishBufferedData` from mqtt.cpp: no-op failure when the session is
down, trivial success on an empty buffer, otherwise the drain loop; returns
true exactly when no delivery failed. -/
def publishBufferedData (connected : Bool) (outcome : ℕ → Bool) (buf : DataBuffer) :
    DataBuffer × Bool :=
  if !connected then (buf, false)
  else if bufferCount buf = 0 then (buf, true)
  else
    let r := drainLoop outcome buf.count buf 0
    (r.1, decide (r.2.2 = 0))

theorem drainLoop_succ (outcome : ℕ → Bool) (fuel : ℕ) (buf : DataBuffer) (p : ℕ) :
    drainLoop outcome (fuel + 1) buf p =
      if bufferHasData buf then
        match (getNextBufferedData buf).1 with
        | Option.none => (buf, [], 0)
        | Option.some d =>
          if outcome p then
            let r := drainLoop outcome fuel (markDataPublished buf) (p + 1)
            (r.1, d :: r.2.1, r.2.2)
          else (buf, [], 1)
      else (buf, [], 0) := rfl

theorem drainLoop_spec (outcome : ℕ → Bool) (fuel : ℕ) :
    ∀ (buf : DataBuffer) (p : ℕ), BufInv buf → buf.count ≤ fuel →
    (drainLoop outcome fuel buf p).2.1 = (bufItems buf).take (leadRun outcome p buf.count) ∧
    bufItems (drainLoop outcome fuel buf p).1 =
      (bufItems buf).drop (leadRun outcome p buf.count) ∧
    BufInv (drainLoop outcome fuel buf p).1 ∧
    ((drainLoop outcome fuel buf p).2.2 = 0 ↔ leadRun outcome p buf.count = buf.count) := by
  induction fuel with
  | zero =>
      intro buf p hInv hfuel
      have hc : buf.count = 0 := by omega
      simp [drainLoop, hc, leadRun, hInv]
  | succ m ih =>
      intro buf p hInv hfuel
      rcases hc : buf.count with _ | c
      · have hnd : bufferHasData buf = false := by simp [bufferHasData, hc]
        simp [drainLoop_succ, hnd, leadRun, hInv]
      · have hnd : bufferHasData buf = true := by simp [bufferHasData, hc]
        have hne : bufItems buf ≠ [] := by
          intro hnil
          have := bufItems_length buf
          rw [hnil, hc] at this
          simp at this
        obtain ⟨d, t, hdt⟩ : ∃ d t, bufItems buf = d :: t := by
          rcases hl : bufItems buf with _ | ⟨d, t⟩
          · exact absurd hl hne
          · exact ⟨d, t, rfl⟩
        have hpeek : (getNextBufferedData buf).1 = some d := by
          rw [getNextBufferedData_eq buf hInv, hdt]
          rfl
        by_cases hout : outcome p
        · have hInv2 : BufInv (markDataPublished buf) := bufInv_markDataPublished buf hInv
          have hcnt2 : (markDataPublished buf).count = c := by
            rw [count_markDataPublished, hc]
            omega
          have hitems2 : bufItems (markDataPublished buf) = t := by
            rw [bufItems_markDataPublished buf hInv, hdt]
            rfl
          have ihm := ih (markDataPublished buf) (p + 1) hInv2 (by omega)
          rw [hcnt2, hitems2] at ihm
          obtain ⟨ih1, ih2, ih3, ih4⟩ := ihm
          have hstep :
              drainLoop outcome (m + 1) buf p =
              ((drainLoop outcome m (markDataPublished buf) (p + 1)).1,
               d :: (drainLoop outcome m (markDataPublished buf) (p + 1)).2.1,
               (drainLoop outcome m (markDataPublished buf) (p + 1)).2.2) := by
            rw [drainLoop_succ, hnd, hpeek]
            simp [hout]
          have hlead : leadRun outcome p (c + 1) = leadRun outcome (p + 1) c + 1 := by
            show (if outcome p then leadRun outcome (p + 1) c + 1 else 0) = _
            rw [if_pos hout]
          refine ⟨?_, ?_, ?_, ?_⟩
          · rw [hstep]
            simp only []
            rw [ih1, hlead, hdt, List.take_succ_cons]
          · rw [hstep]
            simp only []
            rw [ih2, hlead, hdt, List.drop_succ_cons]
          · rw [hstep]
            exact ih3
          · rw [hstep]
            simp only []
            rw [ih4, hlead]
            omega
        · have hstep : drainLoop outcome (m + 1) buf p = (buf, [], 1) := by
            rw [drainLoop_succ, hnd, hpeek]
            simp [hout]
          have hlead : leadRun outcome p (c + 1) = 0 := by
            show (if outcome p then leadRun outcome (p + 1) c + 1 else 0) = 0
            rw [if_neg hout]
          rw [hstep, hlead]
          refine ⟨by simp, by simp, hInv, ?_⟩
          constructor
          · intro h
            exact absurd h one_ne_zero
          · intro h
            exact absurd h (by omega)

theorem publishBufferedData_spec (outcome : ℕ → Bool) (buf : DataBuffer)
    (hInv : BufInv buf) :
    bufItems (publishBufferedData true outcome buf).1 =
      (bufItems buf).drop (leadRun outcome 0 buf.count) ∧
    ((publishBufferedData true outcome buf).2 = true ↔
      leadRun outcome 0 buf.count = buf.count) := by
  unfold publishBufferedData
  rcases hc : buf.count with _ | c
  · simp [bufferCount, hc, leadRun]
  · have hcc : bufferCount buf = c + 1 := by simp [bufferCount, hc]
    have hd := drainLoop_spec outcome buf.count buf 0 hInv (le_refl _)
    rw [hc] at hd
    simp only [Bool.not_true, Bool.false_eq_true, if_false, hcc,
      if_neg (Nat.succ_ne_zero c)]
    refine ⟨hd.2.1, ?_⟩
    rw [decide_eq_true_iff]
    exact hd.2.2.2

/-! ## alerts.cpp — cooldown state and checkAllAlerts

`millis()` readings and `sendSMS` outcomes are external; each parameter check
of one `checkAllAlerts` cycle receives the millis() value observed by
`canSendAlert` and the one observed by `recordAlertSent` (the latter is later
because `sendSMS` blocks in between), plus the SMS delivery outcome. -/

/-- `struct AlertCooldown` from types.h (the `alertCooldowns` static). -/
structure AlertSt where
  lastAlertTime : AlertType → ℕ
  alertActive : AlertType → Bool

/-- State after `initAlerts()`: all timestamps 0, no active alerts. -/
def initAlertSt : AlertSt :=
  ⟨fun _ => 0, fun _ => false⟩

/-- `canSendAlert` from alerts.cpp: on clock wraparound (`now < last`) reset
the stored timestamp to 0 and allow the send; otherwise require the cooldown
window to have elapsed.  Returns the decision and the (possibly updated)
state. -/
def canSendAlert (st : AlertSt) (t : AlertType) (now : ℕ) : Bool × AlertSt :=
  let last := st.lastAlertTime t
  if now < last then
    (true, { st with lastAlertTime := Function.update st.lastAlertTime t 0 })
  else
    (decide (now - last ≥ ALERT_COOLDOWN), st)

/-- `recordAlertSent` from alerts.cpp. -/
def recordAlertSent (st : AlertSt) (t : AlertType) (now : ℕ) : AlertSt :=
  { st with lastAlertTime := Function.update st.lastAlertTime t now,
            alertActive := Function.update st.alertActive t true }

/-- `resetAlertCooldown` from alerts.cpp: clears the active flag (when set)
and touches nothing else — in particular `lastAlertTime` is untouched. -/
def resetAlertCooldown (st : AlertSt) (t : AlertType) : AlertSt :=
  if st.alertActive t then
    { st with alertActive := Function.update st.alertActive t false }
  else st

/-- One notification attempt observed during a cycle: the alert type, the
millis() value read by `canSendAlert`, the millis() value read by
`recordAlertSent`, and whether `sendSMS` succeeded (in which case the alert
was recorded). -/
structure AttemptEv where
  atype : AlertType
  tCan : ℕ
  tRec : ℕ
  sent : Bool
  deriving DecidableEq, Repr

/-- The `severity == CRITICAL` arm shared by every parameter check in
`checkAllAlerts`: consult `canSendAlert`, format and send the SMS, and on
successful delivery record the alert. -/
def processCritical (st : AlertSt) (t : AlertType) (tCan tRec : ℕ) (smsOk : Bool) :
    AlertSt × List AttemptEv :=
  let r := canSendAlert st t tCan
  if r.1 then
    if smsOk then (recordAlertSent r.2 t tRec, [⟨t, tCan, tRec, true⟩])
    else (r.2, [⟨t, tCan, tRec, false⟩])
  else (r.2, [])

/-- One non-voltage parameter check of `checkAllAlerts`: Critical attempts a
notification, Ok clears the cooldown's active flag, Warning does nothing. -/
def processParam (st : AlertSt) (t : AlertType) (level : AlertLevel)
    (tCan tRec : ℕ) (smsOk : Bool) : AlertSt × List AttemptEv :=
  match level with
  | .critical => processCritical st t tCan tRec smsOk
  | .ok => (resetAlertCooldown st t, [])
  | .warning => (st, [])

/-- The voltage check of `checkAllAlerts`: the alert type is chosen by the
`isHigh` out-parameter; when the voltage is Ok both voltage cooldowns are
cleared. -/
def processVoltage (st : AlertSt) (v : FVal) (tCan tRec : ℕ) (smsOk : Bool) :
    AlertSt × List AttemptEv :=
  let cv := checkVoltage v
  if cv.1 ≠ .ok then
    let t := if cv.2 then AlertType.voltageHigh else AlertType.voltageLow
    if cv.1 = .critical then processCritical st t tCan tRec smsOk
    else (st, [])
  else
    (resetAlertCooldown (resetAlertCooldown st .voltageHigh) .voltageLow, [])

/-- The millis() values observed during one `checkAllAlerts` cycle, one
(canSend, record) pair per parameter check in program order. -/
structure CycleTimes where
  vCan : ℕ
  vRec : ℕ
  cCan : ℕ
  cRec : ℕ
  phCan : ℕ
  phRec : ℕ
  plCan : ℕ
  plRec : ℕ
  iCan : ℕ
  iRec : ℕ
  deriving DecidableEq, Repr

/-- millis() is monotone within a cycle (checks run in program order). -/
def cycleMono (tm : CycleTimes) : Bool :=
  decide (tm.vCan ≤ tm.vRec) && decide (tm.vRec ≤ tm.cCan) &&
  decide (tm.cCan ≤ tm.cRec) && decide (tm.cRec ≤ tm.phCan) &&
  decide (tm.phCan ≤ tm.phRec) && decide (tm.phRec ≤ tm.plCan) &&
  decide (tm.plCan ≤ tm.plRec) && decide (tm.plRec ≤ tm.iCan) &&
  decide (tm.iCan ≤ tm.iRec)

/-- `checkAllAlerts` from alerts.cpp: check the five parameters in program
order, write the computed severities back into the snapshot, and thread the
cooldown state; returns the updated state, the annotated snapshot, and the
notification attempts in order. -/
def checkAllAlerts (st : AlertSt) (d : SystemData) (tm : CycleTimes)
    (sms : AlertType → Bool) : AlertSt × SystemData × List AttemptEv :=
  let cv := checkVoltage d.voltage.value
  let d1 := { d with voltage := { d.voltage with alertLevel := cv.1 } }
  let p1 := processVoltage st d.voltage.value tm.vCan tm.vRec
      (sms (if cv.2 then AlertType.voltageHigh else AlertType.voltageLow))
  let lc := checkCompressorTemp d.tempCompressor.value
  let d2 := { d1 with tempCompressor := { d1.tempCompressor with alertLevel := lc } }
  let p2 := processParam p1.1 .compressorTemp lc tm.cCan tm.cRec (sms .compressorTemp)
  let lph := checkPressureHigh d.pressureHigh.value
  let d3 := { d2 with pressureHigh := { d2.pressureHigh with alertLevel := lph } }
  let p3 := processParam p2.1 .pressureHigh lph tm.phCan tm.phRec (sms .pressureHigh)
  let lpl := checkPressureLow d.pressureLow.value
  let d4 := { d3 with pressureLow := { d3.pressureLow with alertLevel := lpl } }
  let p4 := processParam p3.1 .pressureLow lpl tm.plCan tm.plRec (sms .pressureLow)
  let li := checkCurrent d.current.value
  let d5 := { d4 with current := { d4.current with alertLevel := li } }
  let p5 := processParam p4.1 .overcurrent li tm.iCan tm.iRec (sms .overcurrent)
  (p5.1, d5, p1.2 ++ p2.2 ++ p3.2 ++ p4.2 ++ p5.2)

/-- The severity that `checkAllAlerts` derives for the parameter monitored by
a given alert type (both voltage types share the voltage parameter). -/
def levelFor (t : AlertType) (d : SystemData) : AlertLevel :=
  match t with
  | .voltageHigh => (checkVoltage d.voltage.value).1
  | .voltageLow => (checkVoltage d.voltage.value).1
  | .compressorTemp => checkCompressorTemp d.tempCompressor.value
  | .pressureHigh => checkPressureHigh d.pressureHigh.value
  | .pressureLow => checkPressureLow d.pressureLow.value
  | .overcurrent => checkCurrent d.current.value

/-- Input of one scheduler cycle: the snapshot, the observed millis() values
and the SMS delivery outcomes. -/
structure CycleIn where
  data : SystemData
  tm : CycleTimes
  sms : AlertType → Bool

/-- A run of `checkAllAlerts` cycles from a starting state, concatenating the
notification attempts. -/
def runAlerts : AlertSt → List CycleIn → AlertSt × List AttemptEv
  | st, [] => (st, [])
  | st, c :: cs =>
    let r := checkAllAlerts st c.data c.tm c.sms
    let rest := runAlerts r.1 cs
    (rest.1, r.2.2 ++ rest.2)

/-- millis() is monotone across a run starting no earlier than `lo`. -/
def runMono (lo : ℕ) : List CycleIn → Bool
  | [] => true
  | c :: cs => decide (lo ≤ c.tm.vCan) && cycleMono c.tm && runMono c.tm.iRec cs

/-- The record times of the successfully sent notifications for one alert
type, in order. -/
def sendTimes (t : AlertType) (evs : List AttemptEv) : List ℕ :=
  (evs.filter (fun e => e.sent && decide (e.atype = t))).map (fun e => e.tRec)

theorem sendTimes_append (t : AlertType) (a b : List AttemptEv) :
    sendTimes t (a ++ b) = sendTimes t a ++ sendTimes t b := by
  simp [sendTimes]

theorem sendTimes_nil (t : AlertType) : sendTimes t [] = [] := rfl

theorem resetAlertCooldown_last (st : AlertSt) (t : AlertType) :
    (resetAlertCooldown st t).lastAlertTime = st.lastAlertTime := by
  unfold resetAlertCooldown
  split <;> rfl

theorem resetAlertCooldown_active_self (st : AlertSt) (t : AlertType) :
    (resetAlertCooldown st t).alertActive t = false := by
  unfold resetAlertCooldown
  split
  · simp
  · next h => simpa using h

theorem resetAlertCooldown_active_other (st : AlertSt) (t u : AlertType) (h : u ≠ t) :
    (resetAlertCooldown st t).alertActive u = st.alertActive u := by
  unfold resetAlertCooldown
  split
  · simp [Function.update_noteq h]
  · rfl

theorem recordAlertSent_last_self (st : AlertSt) (t : AlertType) (now : ℕ) :
    (recordAlertSent st t now).lastAlertTime t = now := by
  simp [recordAlertSent]

theorem recordAlertSent_last_other (st : AlertSt) (t u : AlertType) (now : ℕ)
    (h : u ≠ t) :
    (recordAlertSent st t now).lastAlertTime u = st.lastAlertTime u := by
  simp [recordAlertSent, Function.update_noteq h]

theorem canSendAlert_no_wrap (st : AlertSt) (t : AlertType) (now : ℕ)
    (h : st.lastAlertTime t ≤ now) :
    canSendAlert st t now =
      (decide (now - st.lastAlertTime t ≥ ALERT_COOLDOWN), st) := by
  unfold canSendAlert
  rw [if_neg (Nat.not_lt.mpr h)]

/-- Case analysis of `processCritical` in the absence of clock wraparound. -/
theorem processCritical_cases (st : AlertSt) (t : AlertType) (tCan tRec : ℕ)
    (smsOk : Bool) (h : st.lastAlertTime t ≤ tCan) :
    (¬ ALERT_COOLDOWN ≤ tCan - st.lastAlertTime t ∧
      processCritical st t tCan tRec smsOk = (st, [])) ∨
    (ALERT_COOLDOWN ≤ tCan - st.lastAlertTime t ∧ smsOk = true ∧
      processCritical st t tCan tRec smsOk =
        (recordAlertSent st t tRec, [⟨t, tCan, tRec, true⟩])) ∨
    (ALERT_COOLDOWN ≤ tCan - st.lastAlertTime t ∧ smsOk = false ∧
      processCritical st t tCan tRec smsOk = (st, [⟨t, tCan, tRec, false⟩])) := by
  unfold processCritical
  rw [canSendAlert_no_wrap st t tCan h]
  by_cases hcd : ALERT_COOLDOWN ≤ tCan - st.lastAlertTime t
  · cases smsOk with
    | true =>
        right
        left
        exact ⟨hcd, rfl, by simp [hcd]⟩
    | false =>
        right
        right
        exact ⟨hcd, rfl, by simp [hcd]⟩
  · left
    exact ⟨hcd, by simp [hcd]⟩

/-- The events of `processCritical` all carry the given type and times, and a
sent event requires the cooldown predicate of the entry state. -/
theorem processCritical_events (st : AlertSt) (t : AlertType) (tCan tRec : ℕ)
    (smsOk : Bool) (ev : AttemptEv)
    (hmem : ev ∈ (processCritical st t tCan tRec smsOk).2) :
    ev.atype = t ∧ ev.tCan = tCan ∧ ev.tRec = tRec ∧
    (tCan < st.lastAlertTime t ∨ ALERT_COOLDOWN ≤ tCan - st.lastAlertTime t) := by
  unfold processCritical canSendAlert at hmem
  by_cases hw : tCan < st.lastAlertTime t
  · rw [if_pos hw] at hmem
    simp only [if_true] at hmem
    cases smsOk <;> simp at hmem <;> subst hmem <;> exact ⟨rfl, rfl, rfl, Or.inl hw⟩
  · rw [if_neg hw] at hmem
    simp only [] at hmem
    by_cases hcd : ALERT_COOLDOWN ≤ tCan - st.lastAlertTime t
    · rw [if_pos (by simpa using hcd)] at hmem
      cases smsOk <;> simp at hmem <;> subst hmem <;> exact ⟨rfl, rfl, rfl, Or.inr hcd⟩
    · rw [if_neg (by simpa using hcd)] at hmem
      simp at hmem

/-- Effect of one cycle on the cooldown entry of a single alert type: either
no notification for it was sent and its stored timestamp is unchanged, or
exactly one was sent, no earlier than one cooldown window after the stored
timestamp, and the timestamp was updated to the send time (which is at most
`hi`). -/
def TypeStep (t : AlertType) (st st' : AlertSt) (evs : List AttemptEv) (hi : ℕ) : Prop :=
  (sendTimes t evs = [] ∧ st'.lastAlertTime t = st.lastAlertTime t) ∨
  (∃ n, sendTimes t evs = [n] ∧ st'.lastAlertTime t = n ∧
        st.lastAlertTime t + ALERT_COOLDOWN ≤ n ∧ n ≤ hi)

theorem sendTimes_single_sent (t : AlertType) (tCan tRec : ℕ) :
    sendTimes t [⟨t, tCan, tRec, true⟩] = [tRec] := by
  simp [sendTimes]

theorem sendTimes_single_failed (t : AlertType) (tCan tRec : ℕ) :
    sendTimes t [⟨t, tCan, tRec, false⟩] = [] := by
  simp [sendTimes]

theorem sendTimes_single_other (t u : AlertType) (tCan tRec : ℕ) (b : Bool)
    (h : u ≠ t) :
    sendTimes u [⟨t, tCan, tRec, b⟩] = [] := by
  simp [sendTimes, Ne.symm h]

theorem processCritical_typeStep (st : AlertSt) (t : AlertType) (tCan tRec : ℕ)
    (smsOk : Bool) (h1 : st.lastAlertTime t ≤ tCan) (h2 : tCan ≤ tRec) :
    TypeStep t st (processCritical st t tCan tRec smsOk).1
      (processCritical st t tCan tRec smsOk).2 tRec := by
  rcases processCritical_cases st t tCan tRec smsOk h1 with
    ⟨hcd, heq⟩ | ⟨hcd, hok, heq⟩ | ⟨hcd, hok, heq⟩
  · left
    rw [heq]
    exact ⟨sendTimes_nil t, rfl⟩
  · right
    refine ⟨tRec, ?_, ?_, ?_, le_refl _⟩
    · rw [heq]
      exact sendTimes_single_sent t tCan tRec
    · rw [heq]
      exact recordAlertSent_last_self st t tRec
    · omega
  · left
    rw [heq]
    exact ⟨sendTimes_single_failed t tCan tRec, rfl⟩

theorem canSendAlert_snd_last (st : AlertSt) (t : AlertType) (now : ℕ)
    (u : AlertType) (hu : u ≠ t) :
    (canSendAlert st t now).2.lastAlertTime u = st.lastAlertTime u := by
  simp only [canSendAlert]
  split
  · simp [Function.update_noteq hu]
  · rfl

theorem processCritical_frame (st : AlertSt) (t : AlertType) (tCan tRec : ℕ)
    (smsOk : Bool) (u : AlertType) (hu : u ≠ t) :
    (processCritical st t tCan tRec smsOk).1.lastAlertTime u = st.lastAlertTime u ∧
    sendTimes u (processCritical st t tCan tRec smsOk).2 = [] := by
  simp only [processCritical]
  by_cases hcan : (canSendAlert st t tCan).1 = true
  · rw [if_pos hcan]
    cases smsOk with
    | true =>
        simp only [if_true]
        refine ⟨?_, sendTimes_single_other t u tCan tRec true hu⟩
        rw [recordAlertSent_last_other _ t u tRec hu]
        exact canSendAlert_snd_last st t tCan u hu
    | false =>
        simp only [Bool.false_eq_true, if_false]
        exact ⟨canSendAlert_snd_last st t tCan u hu,
               sendTimes_single_other t u tCan tRec false hu⟩
  · rw [if_neg hcan]
    exact ⟨canSendAlert_snd_last st t tCan u hu, sendTimes_nil u⟩

theorem processParam_typeStep (st : AlertSt) (t : AlertType) (level : AlertLevel)
    (tCan tRec : ℕ) (smsOk : Bool) (h1 : st.lastAlertTime t ≤ tCan)
    (h2 : tCan ≤ tRec) :
    TypeStep t st (processParam st t level tCan tRec smsOk).1
      (processParam st t level tCan tRec smsOk).2 tRec := by
  cases level with
  | critical => exact processCritical_typeStep st t tCan tRec smsOk h1 h2
  | ok =>
      left
      exact ⟨sendTimes_nil t, by rw [processParam, resetAlertCooldown_last]⟩
  | warning =>
      left
      exact ⟨sendTimes_nil t, rfl⟩

theorem processParam_frame (st : AlertSt) (t : AlertType) (level : AlertLevel)
    (tCan tRec : ℕ) (smsOk : Bool) (u : AlertType) (hu : u ≠ t) :
    (processParam st t level tCan tRec smsOk).1.lastAlertTime u = st.lastAlertTime u ∧
    sendTimes u (processParam st t level tCan tRec smsOk).2 = [] := by
  cases level with
  | critical => exact processCritical_frame st t tCan tRec smsOk u hu
  | ok => exact ⟨by rw [processParam, resetAlertCooldown_last], sendTimes_nil u⟩
  | warning => exact ⟨rfl, sendTimes_nil u⟩

/-- `processParam` never changes any stored timestamp except a send for its
own type. -/
theorem processParam_last_le (st : AlertSt) (t : AlertType) (level : AlertLevel)
    (tCan tRec : ℕ) (smsOk : Bool) (u : AlertType) (h1 : st.lastAlertTime t ≤ tCan)
    (h2 : tCan ≤ tRec) (hb : st.lastAlertTime u ≤ tRec) :
    (processParam st t level tCan tRec smsOk).1.lastAlertTime u ≤ tRec := by
  by_cases hu : u = t
  · subst hu
    rcases processParam_typeStep st u level tCan tRec smsOk h1 h2 with
      ⟨_, heq⟩ | ⟨n, _, heq, _, hle⟩
    · rw [heq]; exact hb
    · rw [heq]; exact hle
  · rw [(processParam_frame st t level tCan tRec smsOk u hu).1]
    exact hb

theorem processVoltage_typeStep (st : AlertSt) (v : FVal) (tCan tRec : ℕ)
    (smsOk : Bool) (h1h : st.lastAlertTime .voltageHigh ≤ tCan)
    (h1l : st.lastAlertTime .voltageLow ≤ tCan) (h2 : tCan ≤ tRec) :
    TypeStep .voltageHigh st (processVoltage st v tCan tRec smsOk).1
      (processVoltage st v tCan tRec smsOk).2 tRec ∧
    TypeStep .voltageLow st (processVoltage st v tCan tRec smsOk).1
      (processVoltage st v tCan tRec smsOk).2 tRec := by
  simp only [processVoltage]
  by_cases hok : (checkVoltage v).1 = .ok
  · rw [if_neg (by simpa using hok)]
    constructor <;> left <;>
      exact ⟨sendTimes_nil _, by rw [resetAlertCooldown_last, resetAlertCooldown_last]⟩
  · rw [if_pos (by simpa using hok)]
    by_cases hcrit : (checkVoltage v).1 = .critical
    · rw [if_pos hcrit]
      cases hdir : (checkVoltage v).2 with
      | true =>
          simp only [if_true]
          refine ⟨processCritical_typeStep st .voltageHigh tCan tRec smsOk h1h h2, ?_⟩
          left
          exact ⟨(processCritical_frame st .voltageHigh tCan tRec smsOk .voltageLow
                   (by simp)).2,
                 (processCritical_frame st .voltageHigh tCan tRec smsOk .voltageLow
                   (by simp)).1⟩
      | false =>
          simp only [Bool.false_eq_true, if_false]
          refine ⟨?_, processCritical_typeStep st .voltageLow tCan tRec smsOk h1l h2⟩
          left
          exact ⟨(processCritical_frame st .voltageLow tCan tRec smsOk .voltageHigh
                   (by simp)).2,
                 (processCritical_frame st .voltageLow tCan tRec smsOk .voltageHigh
                   (by simp)).1⟩
    · rw [if_neg hcrit]
      constructor <;> left <;> exact ⟨sendTimes_nil _, rfl⟩

theorem processVoltage_frame (st : AlertSt) (v : FVal) (tCan tRec : ℕ)
    (smsOk : Bool) (u : AlertType) (huh : u ≠ .voltageHigh) (hul : u ≠ .voltageLow) :
    (processVoltage st v tCan tRec smsOk).1.lastAlertTime u = st.lastAlertTime u ∧
    sendTimes u (processVoltage st v tCan tRec smsOk).2 = [] := by
  simp only [processVoltage]
  by_cases hok : (checkVoltage v).1 = .ok
  · rw [if_neg (by simpa using hok)]
    exact ⟨by rw [resetAlertCooldown_last, resetAlertCooldown_last], sendTimes_nil u⟩
  · rw [if_pos (by simpa using hok)]
    by_cases hcrit : (checkVoltage v).1 = .critical
    · rw [if_pos hcrit]
      cases hdir : (checkVoltage v).2 with
      | true =>
          simp only [if_true]
          exact processCritical_frame st .voltageHigh tCan tRec smsOk u huh
      | false =>
          simp only [Bool.false_eq_true, if_false]
          exact processCritical_frame st .voltageLow tCan tRec smsOk u hul
    · rw [if_neg hcrit]
      exact ⟨rfl, sendTimes_nil u⟩

theorem processVoltage_last_le (st : AlertSt) (v : FVal) (tCan tRec : ℕ)
    (smsOk : Bool) (u : AlertType) (h1h : st.lastAlertTime .voltageHigh ≤ tCan)
    (h1l : st.lastAlertTime .voltageLow ≤ tCan) (h2 : tCan ≤ tRec)
    (hb : st.lastAlertTime u ≤ tRec) :
    (processVoltage st v tCan tRec smsOk).1.lastAlertTime u ≤ tRec := by
  obtain ⟨hsh, hsl⟩ := processVoltage_typeStep st v tCan tRec smsOk h1h h1l h2
  by_cases huh : u = AlertType.voltageHigh
  · subst huh
    rcases hsh with ⟨_, heq⟩ | ⟨n, _, heq, _, hle⟩
    · rw [heq]; exact hb
    · rw [heq]; exact hle
  · by_cases hul : u = AlertType.voltageLow
    · subst hul
      rcases hsl with ⟨_, heq⟩ | ⟨n, _, heq, _, hle⟩
      · rw [heq]; exact hb
      · rw [heq]; exact hle
    · rw [(processVoltage_frame st v tCan tRec smsOk u huh hul).1]
      exact hb

/-- Prepend a frame step (no effect on type `t`) to a `TypeStep`. -/
theorem TypeStep.frame_pre {t : AlertType} {st st1 st2 : AlertSt}
    {evs1 evs2 : List AttemptEv} {hi : ℕ}
    (hframe : st1.lastAlertTime t = st.lastAlertTime t)
    (hevs : sendTimes t evs1 = [])
    (hstep : TypeStep t st1 st2 evs2 hi) :
    TypeStep t st st2 (evs1 ++ evs2) hi := by
  rcases hstep with ⟨hs, hl⟩ | ⟨n, hs, hl, hsp, hle⟩
  · left
    rw [sendTimes_append, hevs, hs, hl, hframe]
    exact ⟨rfl, rfl⟩
  · right
    refine ⟨n, ?_, hl, ?_, hle⟩
    · rw [sendTimes_append, hevs, hs]
      rfl
    · rw [← hframe]
      exact hsp

/-- Append a frame step (no effect on type `t`) to a `TypeStep`. -/
theorem TypeStep.frame_post {t : AlertType} {st st1 st2 : AlertSt}
    {evs1 evs2 : List AttemptEv} {hi : ℕ}
    (hstep : TypeStep t st st1 evs1 hi)
    (hframe : st2.lastAlertTime t = st1.lastAlertTime t)
    (hevs : sendTimes t evs2 = []) :
    TypeStep t st st2 (evs1 ++ evs2) hi := by
  rcases hstep with ⟨hs, hl⟩ | ⟨n, hs, hl, hsp, hn⟩
  · left
    rw [sendTimes_append, hevs, hs, hframe, hl]
    exact ⟨rfl, rfl⟩
  · right
    refine ⟨n, ?_, ?_, hsp, hn⟩
    · rw [sendTimes_append, hevs, hs]
      rfl
    · rw [hframe]
      exact hl

/-- Weaken the upper bound of a `TypeStep`. -/
theorem TypeStep.mono_hi {t : AlertType} {st st' : AlertSt}
    {evs : List AttemptEv} {hi hi' : ℕ} (h : TypeStep t st st' evs hi)
    (hle : hi ≤ hi') : TypeStep t st st' evs hi' := by
  rcases h with ⟨hs, hl⟩ | ⟨n, hs, hl, hsp, hn⟩
  · exact Or.inl ⟨hs, hl⟩
  · exact Or.inr ⟨n, hs, hl, hsp, le_trans hn hle⟩

/-- A `TypeStep` only inspects the attempts through `sendTimes`. -/
theorem TypeStep.congr_evs {t : AlertType} {st st' : AlertSt}
    {evs evs' : List AttemptEv} {hi : ℕ} (h : TypeStep t st st' evs hi)
    (hse : sendTimes t evs' = sendTimes t evs) :
    TypeStep t st st' evs' hi := by
  rcases h with ⟨hs, hl⟩ | ⟨n, hs, hl, hsp, hn⟩
  · left
    exact ⟨hse.trans hs, hl⟩
  · right
    exact ⟨n, hse.trans hs, hl, hsp, hn⟩

theorem cycleMono_le (tm : CycleTimes) (h : cycleMono tm = true) :
    tm.vCan ≤ tm.vRec ∧ tm.vRec ≤ tm.cCan ∧ tm.cCan ≤ tm.cRec ∧
    tm.cRec ≤ tm.phCan ∧ tm.phCan ≤ tm.phRec ∧ tm.phRec ≤ tm.plCan ∧
    tm.plCan ≤ tm.plRec ∧ tm.plRec ≤ tm.iCan ∧ tm.iCan ≤ tm.iRec := by
  simp only [cycleMono, Bool.and_eq_true, decide_eq_true_eq] at h
  tauto

/-- Effect of one `checkAllAlerts` call on each alert type's cooldown entry,
assuming the clock did not wrap during the cycle. -/
theorem checkAllAlerts_typeStep (st : AlertSt) (d : SystemData) (tm : CycleTimes)
    (sms : AlertType → Bool) (hmono : cycleMono tm = true)
    (hlast : ∀ u, st.lastAlertTime u ≤ tm.vCan) (t : AlertType) :
    TypeStep t st (checkAllAlerts st d tm sms).1
      (checkAllAlerts st d tm sms).2.2 tm.iRec := by
  obtain ⟨m1, m2, m3, m4, m5, m6, m7, m8, m9⟩ := cycleMono_le tm hmono
  set s1 := processVoltage st d.voltage.value tm.vCan tm.vRec
      (sms (if (checkVoltage d.voltage.value).2 then AlertType.voltageHigh
            else AlertType.voltageLow)) with hs1
  set s2 := processParam s1.1 AlertType.compressorTemp
      (checkCompressorTemp d.tempCompressor.value) tm.cCan tm.cRec
      (sms AlertType.compressorTemp) with hs2
  set s3 := processParam s2.1 AlertType.pressureHigh
      (checkPressureHigh d.pressureHigh.value) tm.phCan tm.phRec
      (sms AlertType.pressureHigh) with hs3
  set s4 := processParam s3.1 AlertType.pressureLow
      (checkPressureLow d.pressureLow.value) tm.plCan tm.plRec
      (sms AlertType.pressureLow) with hs4
  set s5 := processParam s4.1 AlertType.overcurrent
      (checkCurrent d.current.value) tm.iCan tm.iRec
      (sms AlertType.overcurrent) with hs5
  have hfst : (checkAllAlerts st d tm sms).1 = s5.1 := rfl
  have hsnd : (checkAllAlerts st d tm sms).2.2 =
      s1.2 ++ s2.2 ++ s3.2 ++ s4.2 ++ s5.2 := rfl
  rw [hfst, hsnd]
  cases t with
  | voltageHigh =>
      have hstep := (processVoltage_typeStep st d.voltage.value tm.vCan tm.vRec
        (sms (if (checkVoltage d.voltage.value).2 then AlertType.voltageHigh
              else AlertType.voltageLow))
        (hlast .voltageHigh) (hlast .voltageLow) m1).1
      rw [← hs1] at hstep
      have f2 := processParam_frame s1.1 .compressorTemp (checkCompressorTemp d.tempCompressor.value) tm.cCan tm.cRec (sms .compressorTemp)
        .voltageHigh (by simp)
      have f3 := processParam_frame s2.1 .pressureHigh (checkPressureHigh d.pressureHigh.value) tm.phCan tm.phRec (sms .pressureHigh)
        .voltageHigh (by simp)
      have f4 := processParam_frame s3.1 .pressureLow (checkPressureLow d.pressureLow.value) tm.plCan tm.plRec (sms .pressureLow)
        .voltageHigh (by simp)
      have f5 := processParam_frame s4.1 .overcurrent (checkCurrent d.current.value) tm.iCan tm.iRec (sms .overcurrent)
        .voltageHigh (by simp)
      exact (((((hstep.frame_post f2.1 f2.2).frame_post f3.1
        f3.2).frame_post f4.1 f4.2).frame_post f5.1 f5.2).mono_hi (by omega))
  | voltageLow =>
      have hstep := (processVoltage_typeStep st d.voltage.value tm.vCan tm.vRec
        (sms (if (checkVoltage d.voltage.value).2 then AlertType.voltageHigh
              else AlertType.voltageLow))
        (hlast .voltageHigh) (hlast .voltageLow) m1).2
      rw [← hs1] at hstep
      have f2 := processParam_frame s1.1 .compressorTemp (checkCompressorTemp d.tempCompressor.value) tm.cCan tm.cRec (sms .compressorTemp)
        .voltageLow (by simp)
      have f3 := processParam_frame s2.1 .pressureHigh (checkPressureHigh d.pressureHigh.value) tm.phCan tm.phRec (sms .pressureHigh)
        .voltageLow (by simp)
      have f4 := processParam_frame s3.1 .pressureLow (checkPressureLow d.pressureLow.value) tm.plCan tm.plRec (sms .pressureLow)
        .voltageLow (by simp)
      have f5 := processParam_frame s4.1 .overcurrent (checkCurrent d.current.value) tm.iCan tm.iRec (sms .overcurrent)
        .voltageLow (by simp)
      exact (((((hstep.frame_post f2.1 f2.2).frame_post f3.1
        f3.2).frame_post f4.1 f4.2).frame_post f5.1 f5.2).mono_hi (by omega))
  | compressorTemp =>
      have f1 := processVoltage_frame st d.voltage.value tm.vCan tm.vRec
        (sms (if (checkVoltage d.voltage.value).2 then AlertType.voltageHigh else AlertType.voltageLow))
        .compressorTemp (by simp) (by simp)
      have hstep := processParam_typeStep s1.1 .compressorTemp
        (checkCompressorTemp d.tempCompressor.value) tm.cCan tm.cRec
        (sms .compressorTemp)
        (by rw [f1.1]; exact le_trans (hlast .compressorTemp) (by omega)) m3
      have hpre := hstep.frame_pre f1.1 f1.2
      have f3 := processParam_frame s2.1 .pressureHigh (checkPressureHigh d.pressureHigh.value) tm.phCan tm.phRec (sms .pressureHigh)
        .compressorTemp (by simp)
      have f4 := processParam_frame s3.1 .pressureLow (checkPressureLow d.pressureLow.value) tm.plCan tm.plRec (sms .pressureLow)
        .compressorTemp (by simp)
      have f5 := processParam_frame s4.1 .overcurrent (checkCurrent d.current.value) tm.iCan tm.iRec (sms .overcurrent)
        .compressorTemp (by simp)
      exact ((((hpre.frame_post f3.1 f3.2).frame_post f4.1
        f4.2).frame_post f5.1 f5.2).mono_hi (by omega))
  | pressureHigh =>
      have f1 := processVoltage_frame st d.voltage.value tm.vCan tm.vRec
        (sms (if (checkVoltage d.voltage.value).2 then AlertType.voltageHigh else AlertType.voltageLow))
        .pressureHigh (by simp) (by simp)
      have f2 := processParam_frame s1.1 .compressorTemp (checkCompressorTemp d.tempCompressor.value) tm.cCan tm.cRec (sms .compressorTemp)
        .pressureHigh (by simp)
      have hstep := processParam_typeStep s2.1 .pressureHigh
        (checkPressureHigh d.pressureHigh.value) tm.phCan tm.phRec
        (sms .pressureHigh)
        (by rw [f2.1, f1.1]; exact le_trans (hlast .pressureHigh) (by omega)) m5
      have hpre := (hstep.frame_pre f2.1 f2.2).frame_pre f1.1 f1.2
      have f4 := processParam_frame s3.1 .pressureLow (checkPressureLow d.pressureLow.value) tm.plCan tm.plRec (sms .pressureLow)
        .pressureHigh (by simp)
      have f5 := processParam_frame s4.1 .overcurrent (checkCurrent d.current.value) tm.iCan tm.iRec (sms .overcurrent)
        .pressureHigh (by simp)
      have hfin := (hpre.frame_post f4.1 f4.2).frame_post f5.1 f5.2
      exact (hfin.mono_hi (by omega)).congr_evs (by simp [sendTimes_append])
  | pressureLow =>
      have f1 := processVoltage_frame st d.voltage.value tm.vCan tm.vRec
        (sms (if (checkVoltage d.voltage.value).2 then AlertType.voltageHigh else AlertType.voltageLow))
        .pressureLow (by simp) (by simp)
      have f2 := processParam_frame s1.1 .compressorTemp (checkCompressorTemp d.tempCompressor.value) tm.cCan tm.cRec (sms .compressorTemp)
        .pressureLow (by simp)
      have f3 := processParam_frame s2.1 .pressureHigh (checkPressureHigh d.pressureHigh.value) tm.phCan tm.phRec (sms .pressureHigh)
        .pressureLow (by simp)
      have hstep := processParam_typeStep s3.1 .pressureLow
        (checkPressureLow d.pressureLow.value) tm.plCan tm.plRec
        (sms .pressureLow)
        (by rw [f3.1, f2.1, f1.1]; exact le_trans (hlast .pressureLow) (by omega)) m7
      have hpre := ((hstep.frame_pre f3.1 f3.2).frame_pre f2.1 f2.2).frame_pre
        f1.1 f1.2
      have f5 := processParam_frame s4.1 .overcurrent (checkCurrent d.current.value) tm.iCan tm.iRec (sms .overcurrent)
        .pressureLow (by simp)
      have hfin := hpre.frame_post f5.1 f5.2
      exact (hfin.mono_hi (by omega)).congr_evs (by simp [sendTimes_append])
  | overcurrent =>
      have f1 := processVoltage_frame st d.voltage.value tm.vCan tm.vRec
        (sms (if (checkVoltage d.voltage.value).2 then AlertType.voltageHigh else AlertType.voltageLow))
        .overcurrent (by simp) (by simp)
      have f2 := processParam_frame s1.1 .compressorTemp (checkCompressorTemp d.tempCompressor.value) tm.cCan tm.cRec (sms .compressorTemp)
        .overcurrent (by simp)
      have f3 := processParam_frame s2.1 .pressureHigh (checkPressureHigh d.pressureHigh.value) tm.phCan tm.phRec (sms .pressureHigh)
        .overcurrent (by simp)
      have f4 := processParam_frame s3.1 .pressureLow (checkPressureLow d.pressureLow.value) tm.plCan tm.plRec (sms .pressureLow)
        .overcurrent (by simp)
      have hstep := processParam_typeStep s4.1 .overcurrent
        (checkCurrent d.current.value) tm.iCan tm.iRec (sms .overcurrent)
        (by rw [f4.1, f3.1, f2.1, f1.1]
            exact le_trans (hlast .overcurrent) (by omega)) m9
      have hfin := (((hstep.frame_pre f4.1 f4.2).frame_pre f3.1 f3.2).frame_pre
        f2.1 f2.2).frame_pre f1.1 f1.2
      exact (hfin.mono_hi (by omega)).congr_evs (by simp [sendTimes_append])

/-- Any event of `processParam` certifies that the severity was Critical and
the cooldown predicate held for the entry state. -/
theorem processParam_events (st : AlertSt) (t : AlertType) (level : AlertLevel)
    (tCan tRec : ℕ) (smsOk : Bool) (ev : AttemptEv)
    (hmem : ev ∈ (processParam st t level tCan tRec smsOk).2) :
    level = .critical ∧ ev.atype = t ∧ ev.tCan = tCan ∧
    (tCan < st.lastAlertTime t ∨ ALERT_COOLDOWN ≤ tCan - st.lastAlertTime t) := by
  cases level with
  | critical =>
      obtain ⟨ha, hc, _, hcd⟩ := processCritical_events st t tCan tRec smsOk ev hmem
      exact ⟨rfl, ha, hc, hcd⟩
  | ok => simp [processParam] at hmem
  | warning => simp [processParam] at hmem

/-- Any event of `processVoltage` certifies a Critical voltage severity and
the cooldown predicate of the selected voltage alert type. -/
theorem processVoltage_events (st : AlertSt) (v : FVal) (tCan tRec : ℕ)
    (smsOk : Bool) (ev : AttemptEv)
    (hmem : ev ∈ (processVoltage st v tCan tRec smsOk).2) :
    (checkVoltage v).1 = .critical ∧
    (ev.atype = .voltageHigh ∨ ev.atype = .voltageLow) ∧ ev.tCan = tCan ∧
    (tCan < st.lastAlertTime ev.atype ∨
      ALERT_COOLDOWN ≤ tCan - st.lastAlertTime ev.atype) := by
  simp only [processVoltage] at hmem
  by_cases hok : (checkVoltage v).1 = .ok
  · rw [if_neg (by simpa using hok)] at hmem
    simp at hmem
  · rw [if_pos (by simpa using hok)] at hmem
    by_cases hcrit : (checkVoltage v).1 = .critical
    · rw [if_pos hcrit] at hmem
      cases hdir : (checkVoltage v).2 with
      | true =>
          rw [hdir] at hmem
          simp only [if_true] at hmem
          obtain ⟨ha, hc, _, hcd⟩ :=
            processCritical_events st .voltageHigh tCan tRec smsOk ev hmem
          exact ⟨hcrit, Or.inl ha, hc, by rw [ha]; exact hcd⟩
      | false =>
          rw [hdir] at hmem
          simp only [Bool.false_eq_true, if_false] at hmem
          obtain ⟨ha, hc, _, hcd⟩ :=
            processCritical_events st .voltageLow tCan tRec smsOk ev hmem
          exact ⟨hcrit, Or.inr ha, hc, by rw [ha]; exact hcd⟩
    · rw [if_neg hcrit] at hmem
      simp at hmem

/-- Gating of `checkAllAlerts`: every notification attempt is for a parameter
whose derived severity is Critical, and happens only with the cooldown
predicate (wraparound, or a full window elapsed) true of the entry state. -/
theorem checkAllAlerts_gating (st : AlertSt) (d : SystemData) (tm : CycleTimes)
    (sms : AlertType → Bool) (ev : AttemptEv)
    (hmem : ev ∈ (checkAllAlerts st d tm sms).2.2) :
    levelFor ev.atype d = .critical ∧
    (ev.tCan < st.lastAlertTime ev.atype ∨
      ALERT_COOLDOWN ≤ ev.tCan - st.lastAlertTime ev.atype) := by
  set s1 := processVoltage st d.voltage.value tm.vCan tm.vRec
      (sms (if (checkVoltage d.voltage.value).2 then AlertType.voltageHigh
            else AlertType.voltageLow)) with hs1
  set s2 := processParam s1.1 AlertType.compressorTemp
      (checkCompressorTemp d.tempCompressor.value) tm.cCan tm.cRec
      (sms AlertType.compressorTemp) with hs2
  set s3 := processParam s2.1 AlertType.pressureHigh
      (checkPressureHigh d.pressureHigh.value) tm.phCan tm.phRec
      (sms AlertType.pressureHigh) with hs3
  set s4 := processParam s3.1 AlertType.pressureLow
      (checkPressureLow d.pressureLow.value) tm.plCan tm.plRec
      (sms AlertType.pressureLow) with hs4
  set s5 := processParam s4.1 AlertType.overcurrent
      (checkCurrent d.current.value) tm.iCan tm.iRec
      (sms AlertType.overcurrent) with hs5
  have hsnd : (checkAllAlerts st d tm sms).2.2 =
      s1.2 ++ s2.2 ++ s3.2 ++ s4.2 ++ s5.2 := rfl
  rw [hsnd] at hmem
  simp only [List.mem_append] at hmem
  have f1 := fun u huh hul =>
    processVoltage_frame st d.voltage.value tm.vCan tm.vRec
      (sms (if (checkVoltage d.voltage.value).2 then AlertType.voltageHigh
            else AlertType.voltageLow)) u huh hul
  rcases hmem with (((hm | hm) | hm) | hm) | hm
  · obtain ⟨hcrit, hdir, hc, hcd⟩ :=
      processVoltage_events st d.voltage.value tm.vCan tm.vRec _ ev hm
    rcases hdir with hd | hd <;>
      exact ⟨by rw [hd]; exact hcrit, by rw [hc]; exact hcd⟩
  · obtain ⟨hlv, ha, hc, hcd⟩ := processParam_events s1.1 .compressorTemp _
      tm.cCan tm.cRec _ ev hm
    rw [(f1 .compressorTemp (by simp) (by simp)).1] at hcd
    refine ⟨by rw [ha, levelFor]; exact hlv, by rw [ha, hc]; exact hcd⟩
  · obtain ⟨hlv, ha, hc, hcd⟩ := processParam_events s2.1 .pressureHigh _
      tm.phCan tm.phRec _ ev hm
    rw [(processParam_frame s1.1 .compressorTemp
          (checkCompressorTemp d.tempCompressor.value) tm.cCan tm.cRec
          (sms .compressorTemp) .pressureHigh (by simp)).1,
        (f1 .pressureHigh (by simp) (by simp)).1] at hcd
    refine ⟨by rw [ha, levelFor]; exact hlv, by rw [ha, hc]; exact hcd⟩
  · obtain ⟨hlv, ha, hc, hcd⟩ := processParam_events s3.1 .pressureLow _
      tm.plCan tm.plRec _ ev hm
    rw [(processParam_frame s2.1 .pressureHigh
          (checkPressureHigh d.pressureHigh.value) tm.phCan tm.phRec
          (sms .pressureHigh) .pressureLow (by simp)).1,
        (processParam_frame s1.1 .compressorTemp
          (checkCompressorTemp d.tempCompressor.value) tm.cCan tm.cRec
          (sms .compressorTemp) .pressureLow (by simp)).1,
        (f1 .pressureLow (by simp) (by simp)).1] at hcd
    refine ⟨by rw [ha, levelFor]; exact hlv, by rw [ha, hc]; exact hcd⟩
  · obtain ⟨hlv, ha, hc, hcd⟩ := processParam_events s4.1 .overcurrent _
      tm.iCan tm.iRec _ ev hm
    rw [(processParam_frame s3.1 .pressureLow
          (checkPressureLow d.pressureLow.value) tm.plCan tm.plRec
          (sms .pressureLow) .overcurrent (by simp)).1,
        (processParam_frame s2.1 .pressureHigh
          (checkPressureHigh d.pressureHigh.value) tm.phCan tm.phRec
          (sms .pressureHigh) .overcurrent (by simp)).1,
        (processParam_frame s1.1 .compressorTemp
          (checkCompressorTemp d.tempCompressor.value) tm.cCan tm.cRec
          (sms .compressorTemp) .overcurrent (by simp)).1,
        (f1 .overcurrent (by simp) (by simp)).1] at hcd
    refine ⟨by rw [ha, levelFor]; exact hlv, by rw [ha, hc]; exact hcd⟩

/-- Notifications for one alert type are spaced at least one cooldown window
apart. -/
def Spaced (l : List ℕ) : Prop :=
  List.Chain' (fun a b => a + ALERT_COOLDOWN ≤ b) l

/-- Run invariant: with a monotone clock, each type's sends (prefixed by the
entry timestamp) form a cooldown-spaced chain, and the stored timestamp tracks
the most recent send. -/
theorem runAlerts_chain (cycles : List CycleIn) :
    ∀ (st : AlertSt) (lo : ℕ), runMono lo cycles = true →
    (∀ u, st.lastAlertTime u ≤ lo) →
    (∀ t, Spaced (st.lastAlertTime t :: sendTimes t (runAlerts st cycles).2) ∧
      (runAlerts st cycles).1.lastAlertTime t =
        (sendTimes t (runAlerts st cycles).2).getLastD (st.lastAlertTime t)) := by
  induction cycles with
  | nil =>
      intro st lo _ _ t
      exact ⟨List.chain'_singleton _, rfl⟩
  | cons c cs ih =>
      intro st lo hrm hlast t
      have hrm' := hrm
      simp only [runMono, Bool.and_eq_true, decide_eq_true_eq] at hrm'
      obtain ⟨⟨hlo, hcm⟩, hrest⟩ := hrm'
      have hlastv : ∀ u, st.lastAlertTime u ≤ c.tm.vCan :=
        fun u => le_trans (hlast u) hlo
      have hTS := checkAllAlerts_typeStep st c.data c.tm c.sms hcm hlastv
      set st1 := (checkAllAlerts st c.data c.tm c.sms).1 with hst1
      set evs1 := (checkAllAlerts st c.data c.tm c.sms).2.2 with hevs1
      have hlast1 : ∀ u, st1.lastAlertTime u ≤ c.tm.iRec := by
        intro u
        rcases hTS u with ⟨_, heq⟩ | ⟨n, _, heq, _, hle⟩
        · rw [heq]
          obtain ⟨m1, m2, m3, m4, m5, m6, m7, m8, m9⟩ := cycleMono_le c.tm hcm
          exact le_trans (hlastv u) (by omega)
        · rw [heq]
          exact hle
      have ihm := ih st1 c.tm.iRec hrest hlast1
      have hrun : runAlerts st (c :: cs) =
          ((runAlerts st1 cs).1, evs1 ++ (runAlerts st1 cs).2) := rfl
      rw [hrun]
      simp only [sendTimes_append]
      rcases hTS t with ⟨hse, heq⟩ | ⟨n, hse, heq, hsp, _⟩
      · rw [hse]
        simp only [List.nil_append]
        have := ihm t
        rw [heq] at this
        exact this
      · rw [hse]
        simp only [List.cons_append, List.nil_append]
        obtain ⟨ihc, ihl⟩ := ihm t
        rw [heq] at ihc ihl
        constructor
        · exact List.chain'_cons.mpr ⟨hsp, ihc⟩
        · rw [List.getLastD_cons, ihl]

theorem canSendAlert_snd_active (st : AlertSt) (t : AlertType) (now : ℕ) :
    (canSendAlert st t now).2.alertActive = st.alertActive := by
  simp only [canSendAlert]
  split <;> rfl

theorem recordAlertSent_active_other (st : AlertSt) (t u : AlertType) (now : ℕ)
    (h : u ≠ t) :
    (recordAlertSent st t now).alertActive u = st.alertActive u := by
  simp [recordAlertSent, Function.update_noteq h]

theorem processCritical_active_other (st : AlertSt) (t : AlertType)
    (tCan tRec : ℕ) (smsOk : Bool) (u : AlertType) (hu : u ≠ t) :
    (processCritical st t tCan tRec smsOk).1.alertActive u = st.alertActive u := by
  simp only [processCritical]
  by_cases hcan : (canSendAlert st t tCan).1 = true
  · rw [if_pos hcan]
    cases smsOk with
    | true =>
        simp only [if_true]
        rw [recordAlertSent_active_other _ t u tRec hu, canSendAlert_snd_active]
    | false =>
        simp only [Bool.false_eq_true, if_false]
        rw [canSendAlert_snd_active]
  · rw [if_neg hcan]
    rw [canSendAlert_snd_active]

theorem processParam_active_other (st : AlertSt) (t : AlertType)
    (level : AlertLevel) (tCan tRec : ℕ) (smsOk : Bool) (u : AlertType)
    (hu : u ≠ t) :
    (processParam st t level tCan tRec smsOk).1.alertActive u = st.alertActive u := by
  cases level with
  | critical => exact processCritical_active_other st t tCan tRec smsOk u hu
  | ok => exact resetAlertCooldown_active_other st t u hu
  | warning => rfl

theorem processVoltage_active_other (st : AlertSt) (v : FVal) (tCan tRec : ℕ)
    (smsOk : Bool) (u : AlertType) (huh : u ≠ .voltageHigh)
    (hul : u ≠ .voltageLow) :
    (processVoltage st v tCan tRec smsOk).1.alertActive u = st.alertActive u := by
  simp only [processVoltage]
  by_cases hok : (checkVoltage v).1 = .ok
  · rw [if_neg (by simpa using hok)]
    rw [resetAlertCooldown_active_other _ _ _ hul,
        resetAlertCooldown_active_other _ _ _ huh]
  · rw [if_pos (by simpa using hok)]
    by_cases hcrit : (checkVoltage v).1 = .critical
    · rw [if_pos hcrit]
      cases hdir : (checkVoltage v).2 with
      | true =>
          simp only [if_true]
          exact processCritical_active_other st .voltageHigh tCan tRec smsOk u huh
      | false =>
          simp only [Bool.false_eq_true, if_false]
          exact processCritical_active_other st .voltageLow tCan tRec smsOk u hul
    · rw [if_neg hcrit]

theorem processParam_ok (st : AlertSt) (t : AlertType) (tCan tRec : ℕ)
    (smsOk : Bool) :
    processParam st t .ok tCan tRec smsOk = (resetAlertCooldown st t, []) := rfl

theorem processVoltage_ok (st : AlertSt) (v : FVal) (tCan tRec : ℕ)
    (smsOk : Bool) (h : (checkVoltage v).1 = .ok) :
    processVoltage st v tCan tRec smsOk =
      (resetAlertCooldown (resetAlertCooldown st .voltageHigh) .voltageLow, []) := by
  simp [processVoltage, h]

/-- When a parameter's severity is Ok, `checkAllAlerts` clears that
condition's active flag but leaves its stored notification timestamp
untouched. -/
theorem checkAllAlerts_ok_clears (st : AlertSt) (d : SystemData)
    (tm : CycleTimes) (sms : AlertType → Bool) (t : AlertType)
    (hok : levelFor t d = .ok) :
    (checkAllAlerts st d tm sms).1.alertActive t = false ∧
    (checkAllAlerts st d tm sms).1.lastAlertTime t = st.lastAlertTime t := by
  set s1 := processVoltage st d.voltage.value tm.vCan tm.vRec
      (sms (if (checkVoltage d.voltage.value).2 then AlertType.voltageHigh
            else AlertType.voltageLow)) with hs1
  set s2 := processParam s1.1 AlertType.compressorTemp
      (checkCompressorTemp d.tempCompressor.value) tm.cCan tm.cRec
      (sms AlertType.compressorTemp) with hs2
  set s3 := processParam s2.1 AlertType.pressureHigh
      (checkPressureHigh d.pressureHigh.value) tm.phCan tm.phRec
      (sms AlertType.pressureHigh) with hs3
  set s4 := processParam s3.1 AlertType.pressureLow
      (checkPressureLow d.pressureLow.value) tm.plCan tm.plRec
      (sms AlertType.pressureLow) with hs4
  set s5 := processParam s4.1 AlertType.overcurrent
      (checkCurrent d.current.value) tm.iCan tm.iRec
      (sms AlertType.overcurrent) with hs5
  have hfst : (checkAllAlerts st d tm sms).1 = s5.1 := rfl
  rw [hfst]
  have a2 := fun u (hu : u ≠ AlertType.compressorTemp) =>
    processParam_active_other s1.1 .compressorTemp
      (checkCompressorTemp d.tempCompressor.value) tm.cCan tm.cRec
      (sms .compressorTemp) u hu
  have a3 := fun u (hu : u ≠ AlertType.pressureHigh) =>
    processParam_active_other s2.1 .pressureHigh
      (checkPressureHigh d.pressureHigh.value) tm.phCan tm.phRec
      (sms .pressureHigh) u hu
  have a4 := fun u (hu : u ≠ AlertType.pressureLow) =>
    processParam_active_other s3.1 .pressureLow
      (checkPressureLow d.pressureLow.value) tm.plCan tm.plRec
      (sms .pressureLow) u hu
  have a5 := fun u (hu : u ≠ AlertType.overcurrent) =>
    processParam_active_other s4.1 .overcurrent
      (checkCurrent d.current.value) tm.iCan tm.iRec
      (sms .overcurrent) u hu
  have l2 := fun u (hu : u ≠ AlertType.compressorTemp) =>
    (processParam_frame s1.1 .compressorTemp
      (checkCompressorTemp d.tempCompressor.value) tm.cCan tm.cRec
      (sms .compressorTemp) u hu).1
  have l3 := fun u (hu : u ≠ AlertType.pressureHigh) =>
    (processParam_frame s2.1 .pressureHigh
      (checkPressureHigh d.pressureHigh.value) tm.phCan tm.phRec
      (sms .pressureHigh) u hu).1
  have l4 := fun u (hu : u ≠ AlertType.pressureLow) =>
    (processParam_frame s3.1 .pressureLow
      (checkPressureLow d.pressureLow.value) tm.plCan tm.plRec
      (sms .pressureLow) u hu).1
  have l5 := fun u (hu : u ≠ AlertType.overcurrent) =>
    (processParam_frame s4.1 .overcurrent
      (checkCurrent d.current.value) tm.iCan tm.iRec
      (sms .overcurrent) u hu).1
  have lv := fun u huh hul =>
    (processVoltage_frame st d.voltage.value tm.vCan tm.vRec
      (sms (if (checkVoltage d.voltage.value).2 then AlertType.voltageHigh
            else AlertType.voltageLow)) u huh hul).1
  have av := fun u huh hul =>
    processVoltage_active_other st d.voltage.value tm.vCan tm.vRec
      (sms (if (checkVoltage d.voltage.value).2 then AlertType.voltageHigh
            else AlertType.voltageLow)) u huh hul
  cases t with
  | voltageHigh =>
      have hcv : (checkVoltage d.voltage.value).1 = .ok := hok
      have hvolt := processVoltage_ok st d.voltage.value tm.vCan tm.vRec
        (sms (if (checkVoltage d.voltage.value).2 then AlertType.voltageHigh
              else AlertType.voltageLow)) hcv
      constructor
      · rw [a5 _ (by simp), a4 _ (by simp), a3 _ (by simp), a2 _ (by simp),
            hs1, hvolt]
        dsimp only
        rw [resetAlertCooldown_active_other _ _ _ (by simp)]
        exact resetAlertCooldown_active_self st .voltageHigh
      · rw [l5 _ (by simp), l4 _ (by simp), l3 _ (by simp), l2 _ (by simp),
            hs1, hvolt]
        dsimp only
        rw [resetAlertCooldown_last, resetAlertCooldown_last]
  | voltageLow =>
      have hcv : (checkVoltage d.voltage.value).1 = .ok := hok
      have hvolt := processVoltage_ok st d.voltage.value tm.vCan tm.vRec
        (sms (if (checkVoltage d.voltage.value).2 then AlertType.voltageHigh
              else AlertType.voltageLow)) hcv
      constructor
      · rw [a5 _ (by simp), a4 _ (by simp), a3 _ (by simp), a2 _ (by simp),
            hs1, hvolt]
        dsimp only
        exact resetAlertCooldown_active_self _ .voltageLow
      · rw [l5 _ (by simp), l4 _ (by simp), l3 _ (by simp), l2 _ (by simp),
            hs1, hvolt]
        dsimp only
        rw [resetAlertCooldown_last, resetAlertCooldown_last]
  | compressorTemp =>
      have hcv : checkCompressorTemp d.tempCompressor.value = .ok := hok
      constructor
      · rw [a5 _ (by simp), a4 _ (by simp), a3 _ (by simp), hs2, hcv,
            processParam_ok]
        dsimp only
        exact resetAlertCooldown_active_self _ .compressorTemp
      · rw [l5 _ (by simp), l4 _ (by simp), l3 _ (by simp), hs2, hcv,
            processParam_ok]
        dsimp only
        rw [resetAlertCooldown_last]
        exact lv _ (by simp) (by simp)
  | pressureHigh =>
      have hcv : checkPressureHigh d.pressureHigh.value = .ok := hok
      constructor
      · rw [a5 _ (by simp), a4 _ (by simp), hs3, hcv, processParam_ok]
        dsimp only
        exact resetAlertCooldown_active_self _ .pressureHigh
      · rw [l5 _ (by simp), l4 _ (by simp), hs3, hcv, processParam_ok]
        dsimp only
        rw [resetAlertCooldown_last, l2 _ (by simp)]
        exact lv _ (by simp) (by simp)
  | pressureLow =>
      have hcv : checkPressureLow d.pressureLow.value = .ok := hok
      constructor
      · rw [a5 _ (by simp), hs4, hcv, processParam_ok]
        dsimp only
        exact resetAlertCooldown_active_self _ .pressureLow
      · rw [l5 _ (by simp), hs4, hcv, processParam_ok]
        dsimp only
        rw [resetAlertCooldown_last, l3 _ (by simp), l2 _ (by simp)]
        exact lv _ (by simp) (by simp)
  | overcurrent =>
      have hcv : checkCurrent d.current.value = .ok := hok
      constructor
      · rw [hs5, hcv, processParam_ok]
        dsimp only
        exact resetAlertCooldown_active_self _ .overcurrent
      · rw [hs5, hcv, processParam_ok]
        dsimp only
        rw [resetAlertCooldown_last, l4 _ (by simp), l3 _ (by simp),
            l2 _ (by simp)]
        exact lv _ (by simp) (by simp)

/-! ## sensors.cpp — acquisition -/

/-- `SIMULATION_MODE` from config.h. -/
def SIMULATION_MODE : Bool := false

/-- The external inputs of one live acquisition: the millis() reading and the
result of each raw channel conversion (`readTemperature` may produce NaN at
the ADC rails; the RMS and pressure conversions are kept abstract as well). -/
structure LiveEnv where
  now : ℕ
  tempInletRaw : FVal
  tempOutletRaw : FVal
  tempAmbientRaw : FVal
  tempCompRaw : FVal
  voltageRaw : FVal
  currentRaw : FVal
  pressureHighRaw : FVal
  pressureLowRaw : FVal
  variation : ℚ

/-- `isValidReading` from sensors.cpp: `!isnan(value) && value >= minValid &&
value <= maxValid`. -/
def isValidReading (v : FVal) (minValid maxValid : ℚ) : Bool :=
  match v with
  | .nan => false
  | .fin q => decide (minValid ≤ q) && decide (q ≤ maxValid)

/-- `simulateSensors` from sensors.cpp, parametrised by the random
`variation` (drawn from `random(-100, 100) / 100.0f`) and the millis()
value. -/
def simulateSensors (variation : ℚ) (now : ℕ) : SystemData :=
  { SystemData.default0 with
    readingTime := now
    tempInlet := ⟨.fin (45 + variation), .ok, now, true⟩
    tempOutlet := ⟨.fin (50 + variation), .ok, now, true⟩
    tempAmbient := ⟨.fin (25 + variation), .ok, now, true⟩
    tempCompressor := ⟨.fin (70 + variation * 2), .ok, now, true⟩
    voltage := ⟨.fin (230 + variation * 5), .ok, now, true⟩
    current := ⟨.fin (85/10 + variation * 5/10), .ok, now, true⟩
    power := FVal.fmul (.fin (230 + variation * 5)) (.fin (85/10 + variation * 5/10))
    pressureHigh := ⟨.fin (280 + variation * 10), .ok, now, true⟩
    pressureLow := ⟨.fin (70 + variation * 5), .ok, now, true⟩
    compressorRunning := true
    fanRunning := true
    defrostActive := false }

/-- `readAllSensors` from sensors.cpp: simulation short-circuit, then the live
path — each reading validated against its configured range, derived power only
from valid voltage and current, `compressorRunning` heuristic from a valid
current draw above 1 A. -/
def readAllSensors (env : LiveEnv) : SystemData :=
  if SIMULATION_MODE then simulateSensors env.variation env.now
  else
    let vVolt := isValidReading env.voltageRaw VOLTAGE_MIN_VALID VOLTAGE_MAX_VALID
    let vCurr := isValidReading env.currentRaw CURRENT_MIN_VALID CURRENT_MAX_VALID
    { tempInlet := ⟨env.tempInletRaw, .ok, env.now,
        isValidReading env.tempInletRaw TEMP_MIN_VALID TEMP_MAX_VALID⟩
      tempOutlet := ⟨env.tempOutletRaw, .ok, env.now,
        isValidReading env.tempOutletRaw TEMP_MIN_VALID TEMP_MAX_VALID⟩
      tempAmbient := ⟨env.tempAmbientRaw, .ok, env.now,
        isValidReading env.tempAmbientRaw TEMP_MIN_VALID TEMP_MAX_VALID⟩
      tempCompressor := ⟨env.tempCompRaw, .ok, env.now,
        isValidReading env.tempCompRaw TEMP_MIN_VALID TEMP_MAX_VALID⟩
      voltage := ⟨env.voltageRaw, .ok, env.now, vVolt⟩
      current := ⟨env.currentRaw, .ok, env.now, vCurr⟩
      power := if vVolt && vCurr then FVal.fmul env.voltageRaw env.currentRaw
               else .fin 0
      pressureHigh := ⟨env.pressureHighRaw, .ok, env.now,
        isValidReading env.pressureHighRaw PRESSURE_MIN_VALID PRESSURE_MAX_VALID⟩
      pressureLow := ⟨env.pressureLowRaw, .ok, env.now,
        isValidReading env.pressureLowRaw PRESSURE_MIN_VALID PRESSURE_MAX_VALID⟩
      compressorRunning := vCurr && env.currentRaw.fgt (.fin 1)
      fanRunning := false
      defrostActive := false
      readingTime := env.now }

/-! ## gsm.cpp — parseSMSCommand -/

/-- The whitespace predicate of Arduino `String::trim` (C `isspace`). -/
def isSpaceChar (c : Char) : Bool :=
  c = ' ' || c = '\t' || c = '\n' || c = '\x0b' || c = '\x0c' || c = '\r'

/-- Arduino `String::trim`: strip leading and trailing whitespace. -/
def trimChars (s : List Char) : List Char :=
  ((s.dropWhile isSpaceChar).reverse.dropWhile isSpaceChar).reverse

/-- Arduino `String::toUpperCase` on one character (C `toupper`). -/
def upperChar (c : Char) : Char :=
  if 'a' ≤ c ∧ c ≤ 'z' then Char.ofNat (c.toNat - 32) else c

/-- `parseSMSCommand` from gsm.cpp: trim, upcase, then match the fixed
vocabulary. -/
def parseSMSCommand (msg : List Char) : SMSCommand :=
  let cmd := (trimChars msg).map upperChar
  if cmd = "STATUS".toList ∨ cmd = "STAT".toList then .status
  else if cmd = "RESET".toList ∨ cmd = "REBOOT".toList ∨ cmd = "RESTART".toList then
    .reset
  else .unknown

/-! ## Claim theorems -/

/-- C1: the publish drain processes the buffer oldest-first; every snapshot
whose delivery succeeds is committed before the next is attempted (the
delivered list is exactly the maximal successful prefix, in order), draining
stops at the first delivery failure, and every item from the failed one
onward remains buffered in original order; the call reports success exactly
when everything was delivered. -/
theorem publish_drain_ordered_stop_on_failure (buf : DataBuffer)
    (outcome : ℕ → Bool) (hInv : BufInv buf) :
    (drainLoop outcome buf.count buf 0).2.1 =
      (bufItems buf).take (leadRun outcome 0 buf.count) ∧
    bufItems (drainLoop outcome buf.count buf 0).1 =
      (bufItems buf).drop (leadRun outcome 0 buf.count) ∧
    bufItems (publishBufferedData true outcome buf).1 =
      (bufItems buf).drop (leadRun outcome 0 buf.count) ∧
    ((publishBufferedData true outcome buf).2 = true ↔
      leadRun outcome 0 buf.count = buf.count) := by
  obtain ⟨h1, h2, _, _⟩ := drainLoop_spec outcome buf.count buf 0 hInv (le_refl _)
  obtain ⟨h3, h4⟩ := publishBufferedData_spec outcome buf hInv
  exact ⟨h1, h2, h3, h4⟩

/-- Witness for C1 at a concrete three-item buffer whose second delivery
fails. -/
theorem publish_drain_ordered_stop_on_failure_witness :
    BufInv (insertRun (List.replicate 3 SystemData.default0)) ∧
    ((drainLoop (fun i => decide (i < 1))
        (insertRun (List.replicate 3 SystemData.default0)).count
        (insertRun (List.replicate 3 SystemData.default0)) 0).2.1 =
      (bufItems (insertRun (List.replicate 3 SystemData.default0))).take
        (leadRun (fun i => decide (i < 1)) 0
          (insertRun (List.replicate 3 SystemData.default0)).count) ∧
    bufItems (drainLoop (fun i => decide (i < 1))
        (insertRun (List.replicate 3 SystemData.default0)).count
        (insertRun (List.replicate 3 SystemData.default0)) 0).1 =
      (bufItems (insertRun (List.replicate 3 SystemData.default0))).drop
        (leadRun (fun i => decide (i < 1)) 0
          (insertRun (List.replicate 3 SystemData.default0)).count) ∧
    bufItems (publishBufferedData true (fun i => decide (i < 1))
        (insertRun (List.replicate 3 SystemData.default0))).1 =
      (bufItems (insertRun (List.replicate 3 SystemData.default0))).drop
        (leadRun (fun i => decide (i < 1)) 0
          (insertRun (List.replicate 3 SystemData.default0)).count) ∧
    ((publishBufferedData true (fun i => decide (i < 1))
        (insertRun (List.replicate 3 SystemData.default0))).2 = true ↔
      leadRun (fun i => decide (i < 1)) 0
          (insertRun (List.replicate 3 SystemData.default0)).count =
        (insertRun (List.replicate 3 SystemData.default0)).count)) :=
  ⟨(insertRun_spec _).1,
   publish_drain_ordered_stop_on_failure _ _ ((insertRun_spec _).1)⟩

/-- C2: inserting more than `BUFFER_SIZE` items saturates the count at the
capacity, raises the overflow flag, and keeps exactly the most recent
`BUFFER_SIZE` items in original order; after 101 inserts the oldest remaining
item is insert number 2. -/
theorem buffer_overflow_keeps_most_recent (l : List SystemData)
    (h : BUFFER_SIZE < l.length) :
    (insertRun l).count = BUFFER_SIZE ∧
    (insertRun l).overflow = true ∧
    bufItems (insertRun l) = l.drop (l.length - BUFFER_SIZE) ∧
    (l.length = BUFFER_SIZE + 1 → (getNextBufferedData (insertRun l)).1 = l[1]?) := by
  obtain ⟨hInv, hcnt, hovf, hitems⟩ := insertRun_spec l
  refine ⟨?_, ?_, hitems, ?_⟩
  · rw [hcnt]
    omega
  · rw [hovf]
    simp [h]
  · intro hlen
    rw [getNextBufferedData_eq _ hInv]
    simp only []
    rw [hitems, hlen]
    have h1 : BUFFER_SIZE + 1 - BUFFER_SIZE = 1 := by omega
    rw [h1, List.head?_drop]

/-- Witness for C2 at 101 inserted default snapshots. -/
theorem buffer_overflow_keeps_most_recent_witness :
    BUFFER_SIZE < (List.replicate 101 SystemData.default0).length ∧
    ((insertRun (List.replicate 101 SystemData.default0)).count = BUFFER_SIZE ∧
    (insertRun (List.replicate 101 SystemData.default0)).overflow = true ∧
    bufItems (insertRun (List.replicate 101 SystemData.default0)) =
      (List.replicate 101 SystemData.default0).drop
        ((List.replicate 101 SystemData.default0).length - BUFFER_SIZE) ∧
    ((List.replicate 101 SystemData.default0).length = BUFFER_SIZE + 1 →
      (getNextBufferedData (insertRun (List.replicate 101 SystemData.default0))).1 =
        (List.replicate 101 SystemData.default0)[1]?)) :=
  ⟨by simp [BUFFER_SIZE],
   buffer_overflow_keeps_most_recent _ (by simp [BUFFER_SIZE])⟩

/-- C3: peeking then committing `N` times yields the buffered items in
original insertion order, the count drops by exactly `N`, and the peek itself
returns the oldest item while leaving the buffer unchanged. -/
theorem peek_commit_preserves_fifo (buf : DataBuffer) (n : ℕ)
    (hInv : BufInv buf) (hn : n ≤ buf.count) :
    (peekCommitRun buf n).1 = (bufItems buf).take n ∧
    (peekCommitRun buf n).2.count = buf.count - n ∧
    getNextBufferedData buf = ((bufItems buf).head?, buf) := by
  obtain ⟨h1, h2⟩ := peekCommitRun_spec buf n hInv hn
  exact ⟨h1, h2, getNextBufferedData_eq buf hInv⟩

/-- Witness for C3: two peek/commit rounds on a three-item buffer. -/
theorem peek_commit_preserves_fifo_witness :
    (BufInv (insertRun (List.replicate 3 SystemData.default0)) ∧
      2 ≤ (insertRun (List.replicate 3 SystemData.default0)).count) ∧
    ((peekCommitRun (insertRun (List.replicate 3 SystemData.default0)) 2).1 =
      (bufItems (insertRun (List.replicate 3 SystemData.default0))).take 2 ∧
    (peekCommitRun (insertRun (List.replicate 3 SystemData.default0)) 2).2.count =
      (insertRun (List.replicate 3 SystemData.default0)).count - 2 ∧
    getNextBufferedData (insertRun (List.replicate 3 SystemData.default0)) =
      ((bufItems (insertRun (List.replicate 3 SystemData.default0))).head?,
        insertRun (List.replicate 3 SystemData.default0))) :=
  ⟨⟨(insertRun_spec _).1, by
      rw [(insertRun_spec _).2.1]
      simp [BUFFER_SIZE]⟩,
   peek_commit_preserves_fifo _ 2 ((insertRun_spec _).1) (by
      rw [(insertRun_spec _).2.1]
      simp [BUFFER_SIZE])⟩

/-- C9: inserting into the offline buffer never fails — `bufferData` always
returns true, the invariant `count ≤ BUFFER_SIZE` is preserved, and the new
snapshot is in the buffer afterwards. -/
theorem bufferData_total_and_bounded (buf : DataBuffer) (d : SystemData)
    (hInv : BufInv buf) :
    (bufferData buf d).2 = true ∧
    BufInv (bufferData buf d).1 ∧
    (bufferData buf d).1.count ≤ BUFFER_SIZE ∧
    d ∈ bufItems (bufferData buf d).1 := by
  refine ⟨bufferData_snd buf d, bufInv_bufferData buf d hInv, ?_, ?_⟩
  · exact (bufInv_bufferData buf d hInv).2.2.1
  · rw [bufItems_bufferData buf d hInv]
    simp

/-- Witness for C9 at a full buffer (100 items). -/
theorem bufferData_total_and_bounded_witness :
    BufInv (insertRun (List.replicate 100 SystemData.default0)) ∧
    ((bufferData (insertRun (List.replicate 100 SystemData.default0))
        SystemData.default0).2 = true ∧
    BufInv (bufferData (insertRun (List.replicate 100 SystemData.default0))
        SystemData.default0).1 ∧
    (bufferData (insertRun (List.replicate 100 SystemData.default0))
        SystemData.default0).1.count ≤ BUFFER_SIZE ∧
    SystemData.default0 ∈ bufItems (bufferData
        (insertRun (List.replicate 100 SystemData.default0))
        SystemData.default0).1) :=
  ⟨(insertRun_spec _).1,
   bufferData_total_and_bounded _ _ ((insertRun_spec _).1)⟩

/-- C7: a live snapshot's derived power equals voltage × current when both
readings are valid, and 0 otherwise. -/
theorem power_from_valid_inputs (env : LiveEnv) :
    (readAllSensors env).power =
      (if (readAllSensors env).voltage.valid && (readAllSensors env).current.valid
       then FVal.fmul (readAllSensors env).voltage.value
              (readAllSensors env).current.value
       else .fin 0) := by
  simp only [readAllSensors, SIMULATION_MODE, Bool.false_eq_true, if_false]

/-- C8 counterexample: the command string "STAT" is not in the claimed
vocabulary yet parses to the Status command, not Unknown. -/
theorem parse_stat_not_unknown :
    parseSMSCommand ("STAT".toList) = SMSCommand.status ∧
    parseSMSCommand ("STAT".toList) ≠ SMSCommand.unknown := by
  exact ⟨by decide, by decide⟩

/-- C8 (amended): parsing is a case- and surrounding-whitespace-insensitive
match: STATUS or STAT map to Status, RESET/REBOOT/RESTART map to Reset, and
every other string maps to Unknown. -/
theorem parse_command_vocabulary (s : List Char) :
    (parseSMSCommand s = SMSCommand.status ↔
      ((trimChars s).map upperChar = "STATUS".toList ∨
       (trimChars s).map upperChar = "STAT".toList)) ∧
    (parseSMSCommand s = SMSCommand.reset ↔
      ((trimChars s).map upperChar = "RESET".toList ∨
       (trimChars s).map upperChar = "REBOOT".toList ∨
       (trimChars s).map upperChar = "RESTART".toList)) ∧
    (parseSMSCommand s = SMSCommand.unknown ↔
      ¬((trimChars s).map upperChar = "STATUS".toList ∨
        (trimChars s).map upperChar = "STAT".toList ∨
        (trimChars s).map upperChar = "RESET".toList ∨
        (trimChars s).map upperChar = "REBOOT".toList ∨
        (trimChars s).map upperChar = "RESTART".toList)) := by
  simp only [parseSMSCommand]
  by_cases h1 : (trimChars s).map upperChar = "STATUS".toList ∨
      (trimChars s).map upperChar = "STAT".toList
  · rw [if_pos h1]
    rcases h1 with h | h <;> simp [h]
  · rw [if_neg h1]
    by_cases h2 : (trimChars s).map upperChar = "RESET".toList ∨
        (trimChars s).map upperChar = "REBOOT".toList ∨
        (trimChars s).map upperChar = "RESTART".toList
    · rw [if_pos h2]
      push_neg at h1
      rcases h2 with h | h | h <;> simp [h, h1.1, h1.2]
    · rw [if_neg h2]
      push_neg at h1 h2
      simp only [reduceCtorEq, false_iff, not_or, true_iff, and_true]
      exact ⟨⟨h1.1, h1.2⟩, ⟨h2.1, h2.2.1, h2.2.2⟩,
             h1.1, h1.2, h2.1, h2.2.1, h2.2.2⟩

/-- One `checkAllAlerts` cycle on a snapshot whose every parameter check is
Ok makes no notification attempt. -/
theorem checkAllAlerts_no_attempts (st : AlertSt) (d : SystemData)
    (tm : CycleTimes) (sms : AlertType → Bool)
    (hv : (checkVoltage d.voltage.value).1 = .ok)
    (hc : checkCompressorTemp d.tempCompressor.value = .ok)
    (hph : checkPressureHigh d.pressureHigh.value = .ok)
    (hpl : checkPressureLow d.pressureLow.value = .ok)
    (hcu : checkCurrent d.current.value = .ok) :
    (checkAllAlerts st d tm sms).2.2 = [] := by
  set s1 := processVoltage st d.voltage.value tm.vCan tm.vRec
      (sms (if (checkVoltage d.voltage.value).2 then AlertType.voltageHigh
            else AlertType.voltageLow)) with hs1
  set s2 := processParam s1.1 AlertType.compressorTemp
      (checkCompressorTemp d.tempCompressor.value) tm.cCan tm.cRec
      (sms AlertType.compressorTemp) with hs2
  set s3 := processParam s2.1 AlertType.pressureHigh
      (checkPressureHigh d.pressureHigh.value) tm.phCan tm.phRec
      (sms AlertType.pressureHigh) with hs3
  set s4 := processParam s3.1 AlertType.pressureLow
      (checkPressureLow d.pressureLow.value) tm.plCan tm.plRec
      (sms AlertType.pressureLow) with hs4
  set s5 := processParam s4.1 AlertType.overcurrent
      (checkCurrent d.current.value) tm.iCan tm.iRec
      (sms AlertType.overcurrent) with hs5
  have hsnd : (checkAllAlerts st d tm sms).2.2 =
      s1.2 ++ s2.2 ++ s3.2 ++ s4.2 ++ s5.2 := rfl
  rw [hsnd]
  have e1 : s1.2 = [] := by
    rw [hs1, processVoltage_ok _ _ _ _ _ hv]
  have e2 : s2.2 = [] := by
    rw [hs2, hc, processParam_ok]
  have e3 : s3.2 = [] := by
    rw [hs3, hph, processParam_ok]
  have e4 : s4.2 = [] := by
    rw [hs4, hpl, processParam_ok]
  have e5 : s5.2 = [] := by
    rw [hs5, hcu, processParam_ok]
  rw [e1, e2, e3, e4, e5]
  rfl

/-- C10: every simulated snapshot (for any jitter in [-1, 1]) has all
readings valid, every configured threshold check returns Ok, and a cycle of
`checkAllAlerts` on it makes no notification attempt. -/
theorem simulated_snapshot_never_alerts (v : ℚ) (now : ℕ)
    (hlo : -1 ≤ v) (hhi : v ≤ 1) :
    ((simulateSensors v now).tempInlet.valid = true ∧
     (simulateSensors v now).tempOutlet.valid = true ∧
     (simulateSensors v now).tempAmbient.valid = true ∧
     (simulateSensors v now).tempCompressor.valid = true ∧
     (simulateSensors v now).voltage.valid = true ∧
     (simulateSensors v now).current.valid = true ∧
     (simulateSensors v now).pressureHigh.valid = true ∧
     (simulateSensors v now).pressureLow.valid = true) ∧
    checkVoltage (simulateSensors v now).voltage.value = (.ok, false) ∧
    checkCompressorTemp (simulateSensors v now).tempCompressor.value = .ok ∧
    checkPressureHigh (simulateSensors v now).pressureHigh.value = .ok ∧
    checkPressureLow (simulateSensors v now).pressureLow.value = .ok ∧
    checkCurrent (simulateSensors v now).current.value = .ok ∧
    (∀ st tm sms, (checkAllAlerts st (simulateSensors v now) tm sms).2.2 = []) := by
  have hvolt : checkVoltage (simulateSensors v now).voltage.value = (.ok, false) := by
    simp only [simulateSensors, checkVoltage, FVal.fge, FVal.fle,
      VOLTAGE_HIGH_CRITICAL, VOLTAGE_HIGH_WARNING, VOLTAGE_LOW_CRITICAL,
      VOLTAGE_LOW_WARNING]
    rw [if_neg (by simp; linarith), if_neg (by simp; linarith),
        if_neg (by simp; linarith), if_neg (by simp; linarith)]
  have hcomp : checkCompressorTemp (simulateSensors v now).tempCompressor.value = .ok := by
    simp only [simulateSensors, checkCompressorTemp, FVal.fge,
      COMP_TEMP_CRITICAL, COMP_TEMP_WARNING]
    rw [if_neg (by simp; linarith), if_neg (by simp; linarith)]
  have hph : checkPressureHigh (simulateSensors v now).pressureHigh.value = .ok := by
    simp only [simulateSensors, checkPressureHigh, FVal.fge,
      PRESSURE_HIGH_CRITICAL, PRESSURE_HIGH_WARNING]
    rw [if_neg (by simp; linarith), if_neg (by simp; linarith)]
  have hpl : checkPressureLow (simulateSensors v now).pressureLow.value = .ok := by
    simp only [simulateSensors, checkPressureLow, FVal.fle,
      PRESSURE_LOW_CRITICAL, PRESSURE_LOW_WARNING]
    rw [if_neg (by simp; linarith), if_neg (by simp; linarith)]
  have hcu : checkCurrent (simulateSensors v now).current.value = .ok := by
    simp only [simulateSensors, checkCurrent, FVal.fge,
      CURRENT_CRITICAL, CURRENT_WARNING]
    rw [if_neg (by simp; linarith), if_neg (by simp; linarith)]
  refine ⟨⟨rfl, rfl, rfl, rfl, rfl, rfl, rfl, rfl⟩, hvolt, hcomp, hph, hpl, hcu, ?_⟩
  intro st tm sms
  exact checkAllAlerts_no_attempts st _ tm sms (by rw [hvolt]) hcomp hph hpl hcu

/-- Witness for C10 at jitter 1. -/
theorem simulated_snapshot_never_alerts_witness :
    ((-1 : ℚ) ≤ 1 ∧ (1 : ℚ) ≤ 1) ∧
    checkVoltage (simulateSensors 1 0).voltage.value = (.ok, false) ∧
    (checkAllAlerts initAlertSt (simulateSensors 1 0)
      ⟨0, 0, 0, 0, 0, 0, 0, 0, 0, 0⟩ (fun _ => true)).2.2 = [] :=
  ⟨⟨by norm_num, le_refl 1⟩,
   (simulated_snapshot_never_alerts 1 0 (by norm_num) (le_refl 1)).2.1,
   (simulated_snapshot_never_alerts 1 0 (by norm_num)
     (le_refl 1)).2.2.2.2.2.2 initAlertSt ⟨0, 0, 0, 0, 0, 0, 0, 0, 0, 0⟩
     (fun _ => true)⟩

/-- C4: a notification is attempted only when the parameter's severity is
Critical and the cooldown predicate holds of the entry state (clock
wraparound counts as expired); Warning severity alone never produces an
attempt; and across any run with a monotone clock from boot, successive sent
notifications for the same condition type are at least one cooldown window
apart. -/
theorem alert_cooldown_discipline :
    (∀ (st : AlertSt) (d : SystemData) (tm : CycleTimes) (sms : AlertType → Bool)
        (ev : AttemptEv), ev ∈ (checkAllAlerts st d tm sms).2.2 →
        levelFor ev.atype d = .critical ∧
        (ev.tCan < st.lastAlertTime ev.atype ∨
          ALERT_COOLDOWN ≤ ev.tCan - st.lastAlertTime ev.atype)) ∧
    (∀ (st : AlertSt) (d : SystemData) (tm : CycleTimes) (sms : AlertType → Bool)
        (t : AlertType), levelFor t d = .warning →
        ∀ ev ∈ (checkAllAlerts st d tm sms).2.2, ev.atype ≠ t) ∧
    (∀ (cycles : List CycleIn), runMono 0 cycles = true →
        ∀ (t : AlertType),
          Spaced (sendTimes t (runAlerts initAlertSt cycles).2)) ∧
    (∀ (st : AlertSt) (t : AlertType) (now : ℕ), now < st.lastAlertTime t →
        (canSendAlert st t now).1 = true ∧
        (canSendAlert st t now).2.lastAlertTime t = 0) := by
  refine ⟨checkAllAlerts_gating, ?_, ?_, ?_⟩
  · intro st d tm sms t hw ev hmem heq
    have hg := (checkAllAlerts_gating st d tm sms ev hmem).1
    rw [heq, hw] at hg
    exact absurd hg (by simp)
  · intro cycles hrm t
    have hch := (runAlerts_chain cycles initAlertSt 0 hrm
      (fun u => le_refl 0) t).1
    exact hch.tail
  · intro st t now h
    unfold canSendAlert
    rw [if_pos h]
    exact ⟨rfl, by simp⟩

/-- Witness for C4: a two-cycle run, both cycles one cooldown window apart. -/
theorem alert_cooldown_discipline_witness :
    runMono 0
      [⟨SystemData.default0,
        ⟨300000, 300000, 300000, 300000, 300000, 300000, 300000, 300000,
         300000, 300000⟩, fun _ => true⟩,
       ⟨SystemData.default0,
        ⟨600000, 600000, 600000, 600000, 600000, 600000, 600000, 600000,
         600000, 600000⟩, fun _ => true⟩] = true ∧
    Spaced (sendTimes AlertType.compressorTemp
      (runAlerts initAlertSt
        [⟨SystemData.default0,
          ⟨300000, 300000, 300000, 300000, 300000, 300000, 300000, 300000,
           300000, 300000⟩, fun _ => true⟩,
         ⟨SystemData.default0,
          ⟨600000, 600000, 600000, 600000, 600000, 600000, 600000, 600000,
           600000, 600000⟩, fun _ => true⟩]).2) :=
  ⟨by decide,
   alert_cooldown_discipline.2.2.1 _ (by decide) AlertType.compressorTemp⟩

/-- C5: when a parameter's severity returns to Ok the evaluator clears that
condition's active flag but leaves its stored notification timestamp
untouched, so a later Critical excursion is still gated by the old cooldown
clock; `resetAlertCooldown` itself modifies only the active flag of its own
type and no `lastAlertTime` entry. -/
theorem ok_clears_active_only :
    (∀ (st : AlertSt) (t : AlertType),
        (resetAlertCooldown st t).lastAlertTime = st.lastAlertTime) ∧
    (∀ (st : AlertSt) (t : AlertType),
        (resetAlertCooldown st t).alertActive t = false) ∧
    (∀ (st : AlertSt) (t u : AlertType), u ≠ t →
        (resetAlertCooldown st t).alertActive u = st.alertActive u) ∧
    (∀ (st : AlertSt) (d : SystemData) (tm : CycleTimes)
        (sms : AlertType → Bool) (t : AlertType), levelFor t d = .ok →
        (checkAllAlerts st d tm sms).1.alertActive t = false ∧
        (checkAllAlerts st d tm sms).1.lastAlertTime t = st.lastAlertTime t) :=
  ⟨resetAlertCooldown_last, resetAlertCooldown_active_self,
   resetAlertCooldown_active_other, checkAllAlerts_ok_clears⟩

/-- Witness for C5 at the default (all-Ok) snapshot and a state with a
nonzero stored timestamp and the flag set. -/
theorem ok_clears_active_only_witness :
    levelFor AlertType.compressorTemp SystemData.default0 = .ok ∧
    ((checkAllAlerts ⟨fun _ => 42, fun _ => true⟩ SystemData.default0
        ⟨0, 0, 0, 0, 0, 0, 0, 0, 0, 0⟩
        (fun _ => true)).1.alertActive AlertType.compressorTemp = false ∧
     (checkAllAlerts ⟨fun _ => 42, fun _ => true⟩ SystemData.default0
        ⟨0, 0, 0, 0, 0, 0, 0, 0, 0, 0⟩
        (fun _ => true)).1.lastAlertTime AlertType.compressorTemp =
       (fun _ : AlertType => 42) AlertType.compressorTemp) :=
  ⟨by decide,
   ok_clears_active_only.2.2.2 ⟨fun _ => 42, fun _ => true⟩ SystemData.default0
     ⟨0, 0, 0, 0, 0, 0, 0, 0, 0, 0⟩ (fun _ => true) AlertType.compressorTemp
     (by decide)⟩

/-- A nominal snapshot except for a compressor-temperature reading of 130 °C
marked invalid (130 exceeds `TEMP_MAX_VALID = 125`). -/
def invalidCompSnapshot : SystemData :=
  ⟨⟨.fin 45, .ok, 0, true⟩, ⟨.fin 50, .ok, 0, true⟩, ⟨.fin 25, .ok, 0, true⟩,
   ⟨.fin 130, .ok, 0, false⟩, ⟨.fin 230, .ok, 0, true⟩, ⟨.fin 9, .ok, 0, true⟩,
   .fin 2070, ⟨.fin 280, .ok, 0, true⟩, ⟨.fin 70, .ok, 0, true⟩,
   true, true, false, 0⟩

/-- C6 counterexample: a compressor-temperature reading of 130 °C is invalid
(the valid range ends at 125 °C), yet `checkAllAlerts` derives a Critical
severity from it and sends a notification — the valid flag is not consulted
by alert evaluation. -/
theorem invalid_reading_still_alerts :
    invalidCompSnapshot.tempCompressor.valid = false ∧
    isValidReading invalidCompSnapshot.tempCompressor.value
      TEMP_MIN_VALID TEMP_MAX_VALID = false ∧
    (checkAllAlerts initAlertSt invalidCompSnapshot
      ⟨300000, 300000, 300000, 300000, 300000, 300000, 300000, 300000,
       300000, 300000⟩
      (fun _ => true)).2.1.tempCompressor.alertLevel = .critical ∧
    (checkAllAlerts initAlertSt invalidCompSnapshot
      ⟨300000, 300000, 300000, 300000, 300000, 300000, 300000, 300000,
       300000, 300000⟩
      (fun _ => true)).2.2 =
      [⟨.compressorTemp, 300000, 300000, true⟩] := by
  exact ⟨rfl, by decide, by decide, by decide⟩

/-- C6 (amended): a reading with `valid = false` is excluded from the derived
calculations (`power` and `compressorRunning`), and the snapshot is still
stored in full for publication; but `checkAllAlerts` does not consult the
valid flag — severities are derived from the stored value even when it is
invalid, and only a NaN value is inert because every threshold comparison
with NaN is false. -/
theorem invalid_excluded_from_derived_not_alerts :
    (∀ env : LiveEnv, ((readAllSensors env).voltage.valid = false ∨
        (readAllSensors env).current.valid = false) →
        (readAllSensors env).power = .fin 0) ∧
    (∀ env : LiveEnv, (readAllSensors env).current.valid = false →
        (readAllSensors env).compressorRunning = false) ∧
    (∀ (st : AlertSt) (d : SystemData) (tm : CycleTimes)
        (sms : AlertType → Bool),
        (checkAllAlerts st d tm sms).2.1.voltage.alertLevel =
          (checkVoltage d.voltage.value).1 ∧
        (checkAllAlerts st d tm sms).2.1.tempCompressor.alertLevel =
          checkCompressorTemp d.tempCompressor.value ∧
        (checkAllAlerts st d tm sms).2.1.pressureHigh.alertLevel =
          checkPressureHigh d.pressureHigh.value ∧
        (checkAllAlerts st d tm sms).2.1.pressureLow.alertLevel =
          checkPressureLow d.pressureLow.value ∧
        (checkAllAlerts st d tm sms).2.1.current.alertLevel =
          checkCurrent d.current.value) ∧
    ((checkVoltage .nan).1 = .ok ∧ checkCompressorTemp .nan = .ok ∧
      checkPressureHigh .nan = .ok ∧ checkPressureLow .nan = .ok ∧
      checkCurrent .nan = .ok) ∧
    (∀ (buf : DataBuffer) (d : SystemData), BufInv buf →
        d ∈ bufItems (bufferData buf d).1) := by
  refine ⟨?_, ?_, ?_, ?_, ?_⟩
  · intro env h
    simp only [readAllSensors, SIMULATION_MODE, Bool.false_eq_true, if_false] at *
    rcases h with h | h <;> simp [h]
  · intro env h
    simp only [readAllSensors, SIMULATION_MODE, Bool.false_eq_true, if_false] at *
    simp [h]
  · intro st d tm sms
    exact ⟨rfl, rfl, rfl, rfl, rfl⟩
  · exact ⟨rfl, rfl, rfl, rfl, rfl⟩
  · intro buf d hInv
    rw [bufItems_bufferData buf d hInv]
    simp

/-- Witness for the amended C6: a snapshot whose voltage conversion returned
NaN has an invalid voltage reading and power 0, and a snapshot is stored in
the buffer whole. -/
theorem invalid_excluded_from_derived_not_alerts_witness :
    ((readAllSensors ⟨0, .nan, .nan, .nan, .nan, .nan, .nan, .nan, .nan, 0⟩).voltage.valid
        = false ∨
      (readAllSensors ⟨0, .nan, .nan, .nan, .nan, .nan, .nan, .nan, .nan, 0⟩).current.valid
        = false) ∧
    (readAllSensors ⟨0, .nan, .nan, .nan, .nan, .nan, .nan, .nan, .nan, 0⟩).power
      = .fin 0 ∧
    BufInv initBuffer ∧
    SystemData.default0 ∈ bufItems (bufferData initBuffer SystemData.default0).1 :=
  ⟨Or.inl rfl,
   invalid_excluded_from_derived_not_alerts.1 _ (Or.inl rfl),
   bufInv_initBuffer,
   invalid_excluded_from_derived_not_alerts.2.2.2.2 initBuffer
     SystemData.default0 bufInv_initBuffer⟩

end HeatPump
